import Mathlib

set_option maxRecDepth 100000

/-!
Shallow embedding of `src/lib/client.ts` (console-bridge-sveltekit), the
client-side capture, loop-detection and batched-transport engine.  The
definitions below are translated from the second (current) version of the
source file: every `def` mirrors the function of the same name in the
TypeScript source; module-level mutable state is gathered into `BridgeState`
and threaded explicitly.  JavaScript numbers that can be non-finite are
modelled by `JsNum`; JavaScript values that can appear as console arguments
are modelled by `JsValue` (with `circular` standing for a value on which
`JSON.stringify` throws).
-/

/-- `type LogLevel = 'log' | 'warn' | 'error' | 'info' | 'debug'` -/
inductive LogLevel where
  | log | warn | error | info | debug
deriving DecidableEq, Repr

/-- `type EventLevel = LogLevel | 'network'` -/
inductive EventLevel where
  | log | warn | error | info | debug | network
deriving DecidableEq, Repr

/-- Coercion of a `LogLevel` into an `EventLevel` (implicit in TS). -/
def LogLevel.toEventLevel : LogLevel → EventLevel
  | .log => .log
  | .warn => .warn
  | .error => .error
  | .info => .info
  | .debug => .debug

/-- `type LogKind = 'console' | 'network' | 'error'` -/
inductive LogKind where
  | console | network | error
deriving DecidableEq, Repr

/-- `requestType?: 'fetch' | 'xhr'` -/
inductive RequestType where
  | fetch | xhr
deriving DecidableEq, Repr

/-- A JavaScript value as it can appear among console/fetch arguments.
`circular` models a structure on which `JSON.stringify` throws a
`TypeError` (circular reference); `errObj` models an `Error` instance. -/
inductive JsValue where
  | undef
  | nullv
  | bool (b : Bool)
  | num (n : Int)
  | str (s : String)
  | errObj (message : String) (stack : Option String)
  | circular
deriving DecidableEq, Repr

/-- `JSON.stringify` on a single value: throws (`Except.error`) exactly on a
circular structure, otherwise produces some serialization. -/
def JsValue.jsonStringify : JsValue → Except Unit String
  | .undef => .ok "null"
  | .nullv => .ok "null"
  | .bool b => .ok (toString b)
  | .num n => .ok (toString n)
  | .str s => .ok ("\x22" ++ s ++ "\x22")
  | .errObj _ _ => .ok "\x7b\x7d"
  | .circular => .error ()

/-- `String(v)` – JavaScript string conversion (used for fetch errors). -/
def JsValue.toStringJs : JsValue → String
  | .undef => "undefined"
  | .nullv => "null"
  | .bool b => toString b
  | .num n => toString n
  | .str s => s
  | .errObj m _ => "Error: " ++ m
  | .circular => "[object Object]"

/-- A JavaScript number: either a finite value or one of the non-finite
values `NaN`, `Infinity`, `-Infinity`. -/
inductive JsNum where
  | finite (q : ℚ)
  | nan
  | inf
  | negInf
deriving DecidableEq, Repr

/-- `Number.isFinite` -/
def JsNum.isFinite : JsNum → Bool
  | .finite _ => true
  | _ => false

/-- JavaScript `v <= 0` (false on `NaN`). -/
def JsNum.leZero : JsNum → Bool
  | .finite q => decide (q ≤ 0)
  | .nan => false
  | .inf => false
  | .negInf => true

/-- The `ToIntegerOrInfinity`-then-clamp-to-`[0, len]` computation used by
`Array.prototype.splice` / `String.prototype.slice` for a count / end
index (negative and `NaN` clamp to `0`, `Infinity` to `len`). -/
def JsNum.toCount (len : Nat) : JsNum → Nat
  | .finite q => min len (max 0 (Rat.floor q)).toNat
  | .nan => 0
  | .inf => len
  | .negInf => 0

/-- The `LogEntry` record of the source. -/
structure LogEntry where
  kind : LogKind
  level : EventLevel
  args : List JsValue
  timestamp : String
  url : String
  stack : Option String := none
  method : Option String := none
  status : Option Nat := none
  duration : Option Nat := none
  requestType : Option RequestType := none
  pageUrl : Option String := none
  responseBody : Option String := none
deriving DecidableEq, Repr

/-- A network URL pattern (`string | RegExp` in the source): modelled as the
predicate it induces on a URL string. -/
def UrlPattern : Type := String → Bool

/-- `matchesPattern(value, pattern)` -/
def matchesPattern (value : String) (pattern : UrlPattern) : Bool :=
  pattern value

/-- `ConsoleBridgeOptions` – the user-facing option bag, all fields
optional. -/
structure ConsoleBridgeOptions where
  endpoint : Option String := none
  batchSize : Option JsNum := none
  batchDelay : Option JsNum := none
  levels : Option (List LogLevel) := none
  captureNetwork : Option Bool := none
  captureErrors : Option Bool := none
  networkBodyLimit : Option JsNum := none
  networkIgnore : Option (List UrlPattern) := none
  networkInclude : Option (List UrlPattern) := none
  loopThreshold : Option JsNum := none
  loopWindow : Option JsNum := none
  maxQueueSize : Option JsNum := none

/-- `Required<ConsoleBridgeOptions>` after resolution.  The three fields
clamped by `initConsolebridge` (`loopThreshold`, `loopWindow`,
`maxQueueSize`) are integers in their safe ranges, hence `Nat`; the other
numeric fields are merged verbatim and stay `JsNum`. -/
structure Options where
  endpoint : String
  batchSize : JsNum
  batchDelay : JsNum
  levels : List LogLevel
  captureNetwork : Bool
  captureErrors : Bool
  networkBodyLimit : JsNum
  networkIgnore : List UrlPattern
  networkInclude : List UrlPattern
  loopThreshold : Nat
  loopWindow : Nat
  maxQueueSize : Nat

/-- `DEFAULT_OPTIONS` of the source. -/
def DEFAULT_OPTIONS : Options where
  endpoint := "/api/console-bridge"
  batchSize := .finite 10
  batchDelay := .finite 100
  levels := [.log, .warn, .error, .info, .debug]
  captureNetwork := true
  captureErrors := true
  networkBodyLimit := .finite 500
  networkIgnore := []
  networkInclude := []
  loopThreshold := 10
  loopWindow := 5000
  maxQueueSize := 200

/-- `const safeInt = (v, min, max, fallback) => Number.isFinite(v) ?
Math.min(max, Math.max(min, Math.floor(v))) : fallback` -/
def safeInt (v : JsNum) (lo hi fallback : Nat) : Nat :=
  match v with
  | .finite q => (min (hi : ℤ) (max (lo : ℤ) (Rat.floor q))).toNat
  | _ => fallback

/-- The option-resolution step of `initConsolebridge`: spread-merge of
`DEFAULT_OPTIONS` and the user options, followed by the `safeInt` clamping
of `loopThreshold`, `loopWindow` and `maxQueueSize` (the only numeric
fields the source clamps). -/
def resolveOptions (user : ConsoleBridgeOptions) : Options where
  endpoint := user.endpoint.getD DEFAULT_OPTIONS.endpoint
  batchSize := user.batchSize.getD DEFAULT_OPTIONS.batchSize
  batchDelay := user.batchDelay.getD DEFAULT_OPTIONS.batchDelay
  levels := user.levels.getD DEFAULT_OPTIONS.levels
  captureNetwork := user.captureNetwork.getD DEFAULT_OPTIONS.captureNetwork
  captureErrors := user.captureErrors.getD DEFAULT_OPTIONS.captureErrors
  networkBodyLimit := user.networkBodyLimit.getD DEFAULT_OPTIONS.networkBodyLimit
  networkIgnore := user.networkIgnore.getD DEFAULT_OPTIONS.networkIgnore
  networkInclude := user.networkInclude.getD DEFAULT_OPTIONS.networkInclude
  loopThreshold :=
    safeInt (user.loopThreshold.getD (.finite 10)) 2 1000 DEFAULT_OPTIONS.loopThreshold
  loopWindow :=
    safeInt (user.loopWindow.getD (.finite 5000)) 100 60000 DEFAULT_OPTIONS.loopWindow
  maxQueueSize :=
    safeInt (user.maxQueueSize.getD (.finite 200)) 10 10000 DEFAULT_OPTIONS.maxQueueSize


/-- The host-environment inputs a single synchronous turn can observe:
`dev` / `browser` from `$app/environment`, `Date.now()`, `new
Date().toISOString()`, `window.location.href`, and the
`Math.round(performance.now() - start)` duration observed by a network
wrapper. -/
structure Env where
  dev : Bool
  browser : Bool
  now : Nat
  nowIso : String
  href : String
  duration : Nat
deriving Repr

/-- One timer scheduled by `scheduleUnsuppress`: the closure captures the
key, `options.loopWindow`, `options.loopThreshold` and the session id at
schedule time. -/
structure UnsuppressCb where
  key : String
  loopWindow : Nat
  threshold : Nat
  session : Nat
deriving Repr

/-- All module-level mutable state of `client.ts`, threaded explicitly.
`recentMessages` is the insertion-ordered `Map<string, number[]>`;
`suppressedKeys` the insertion-ordered `Set<string>`; `batchTimer` records
whether the coalescing timer is pending; `pendingUnsuppress` records the
loop-unsuppression timers currently scheduled; `fetchWrapped` records
whether `window.fetch` currently is the wrapper and `originalFetchSaved`
whether the `originalFetch` snapshot is non-null. -/
structure BridgeState where
  isSending : Bool := false
  logQueue : List LogEntry := []
  batchTimer : Bool := false
  options : Option Options := none
  isInitialized : Bool := false
  networkPatched : Bool := false
  errorListenersAttached : Bool := false
  fetchWrapped : Bool := false
  originalFetchSaved : Bool := false
  recentMessages : List (String × List Nat) := []
  suppressedKeys : List String := []
  sessionId : Nat := 0
  pendingUnsuppress : List UnsuppressCb := []

/-- `Map.prototype.get` on the insertion-ordered association list. -/
def mapGet {α : Type} : List (String × α) → String → Option α
  | [], _ => none
  | p :: m, k => if p.1 = k then some p.2 else mapGet m k

/-- `Map.prototype.set`: replace in place if the key is present, else
append (JavaScript `Map` iteration order is insertion order; keys are
unique, so replacing the first occurrence is replacing the occurrence). -/
def mapSet {α : Type} : List (String × α) → String → α → List (String × α)
  | [], k, v => [(k, v)]
  | p :: m, k, v => if p.1 = k then (k, v) :: m else p :: mapSet m k v

/-- `Map.prototype.delete` / `Set.prototype.delete`. -/
def mapDelete {α : Type} : List (String × α) → String → List (String × α)
  | [], _ => []
  | p :: m, k => if p.1 = k then mapDelete m k else p :: mapDelete m k

/-- The `while (timestamps.length > 0 && timestamps[0] < cutoff)
timestamps.shift()` loop of `checkMessageLoop`: removes the longest prefix
of timestamps strictly below the cutoff (an `Int`, since `now -
loopWindow` can be negative in JavaScript). -/
def pruneOld (cutoff : Int) : List Nat → List Nat
  | [] => []
  | t :: ts => if (t : Int) < cutoff then pruneOld cutoff ts else t :: ts

/-- `getNetworkLevel(status)` -/
def getNetworkLevel (status : Nat) : EventLevel :=
  if status = 0 || 500 ≤ status then .error
  else if 400 ≤ status then .warn
  else .network

/-- `getLoopKey(entry)` -/
def getLoopKey (entry : LogEntry) : String :=
  if entry.kind = .network then
    (entry.method.getD "") ++ " " ++ entry.url ++ " " ++
      (match entry.level with
        | .log => "log" | .warn => "warn" | .error => "error"
        | .info => "info" | .debug => "debug" | .network => "network")
  else
    match entry.args.head? with
    | none => ""
    | some first =>
      match first with
      | .undef => ""
      | .nullv => ""
      | .str s => s.take 200
      | v =>
        match v.jsonStringify with
        | .ok s => s.take 200
        | .error _ => ""

/-- `isNetworkTracked(targetUrl)`.  `resolveUrl` (absolute-URL resolution
against `window.location.href`) is passed in as a function, since the
claims hold for every resolver. -/
def isNetworkTracked (resolveUrl : String → String) (opts : Option Options)
    (targetUrl : String) : Bool :=
  match opts with
  | none => false
  | some o =>
    let resolved := resolveUrl targetUrl
    if resolved = resolveUrl o.endpoint then false
    else if o.networkIgnore.any (fun p => matchesPattern resolved p) then false
    else if 0 < o.networkInclude.length then
      o.networkInclude.any (fun p => matchesPattern resolved p)
    else true

/-- `scheduleBatch()` -/
def scheduleBatch (st : BridgeState) : BridgeState :=
  match st.options with
  | none => st
  | some _ => if st.batchTimer then st else { st with batchTimer := true }

/-- `queueEntry(entry)` (current version: bounded queue with drop-oldest
eviction). -/
def queueEntry (env : Env) (st : BridgeState) (entry : LogEntry) :
    BridgeState :=
  if !env.dev || !env.browser then st else
  match st.options with
  | none => st
  | some o =>
    let q :=
      if o.maxQueueSize ≤ st.logQueue.length then
        st.logQueue.drop (max 1 (o.maxQueueSize / 10))
      else st.logQueue
    scheduleBatch { st with logQueue := q ++ [entry] }

/-- `scheduleUnsuppress(key)`: records the timer with the values its
closure captures. -/
def scheduleUnsuppress (st : BridgeState) (key : String) : BridgeState :=
  match st.options with
  | none => st
  | some o =>
    { st with pendingUnsuppress :=
        st.pendingUnsuppress ++
          [{ key := key, loopWindow := o.loopWindow,
             threshold := o.loopThreshold, session := st.sessionId }] }

/-- The body of the `setTimeout` callback scheduled by
`scheduleUnsuppress`, fired at time `now`. -/
def unsuppressFire (now : Nat) (cb : UnsuppressCb) (st : BridgeState) :
    BridgeState :=
  if cb.session ≠ st.sessionId then st
  else
    let ts := (mapGet st.recentMessages cb.key).getD []
    let recent := ts.filter (fun t => (now : Int) - (cb.loopWindow : Int) < Int.ofNat t)
    let rm := mapSet st.recentMessages cb.key recent
    if recent.length < cb.threshold then
      { st with recentMessages := mapDelete rm cb.key,
                suppressedKeys := st.suppressedKeys.filter (fun k => k ≠ cb.key) }
    else
      { st with recentMessages := rm,
                pendingUnsuppress := st.pendingUnsuppress ++ [cb] }

/-- The "LOOP DETECTED" summary entry synthesized by `checkMessageLoop`.
(The seconds figure is rendered with integer division here; JavaScript
prints the float `loopWindow / 1000` — no claim inspects the digits.) -/
def loopWarningEntry (env : Env) (key : String) (count loopWindow : Nat)
    (url : String) : LogEntry where
  kind := .console
  level := .warn
  args := [.str ("LOOP DETECTED: \x22" ++ key.take 80 ++ "\x22 repeated " ++
    toString count ++ " times in " ++ toString (loopWindow / 1000) ++
    "s — suppressing")]
  timestamp := env.nowIso
  url := url
  pageUrl := some env.href

/-- `checkMessageLoop(entry)`: returns `(suppress?, new state)`. -/
def checkMessageLoop (env : Env) (entry : LogEntry) (st : BridgeState) :
    Bool × BridgeState :=
  match st.options with
  | none => (false, st)
  | some o =>
    let key := getLoopKey entry
    if key = "" then (false, st) else
    let now := env.now
    let loopWindow := o.loopWindow
    let threshold := o.loopThreshold
    -- look up the entry, creating it (with eviction at 100 keys) if absent
    let rmsk : List (String × List Nat) × List String :=
      match mapGet st.recentMessages key with
      | some _ => (st.recentMessages, st.suppressedKeys)
      | none =>
        if 100 ≤ st.recentMessages.length then
          match st.recentMessages.head? with
          | some p =>
            (mapDelete st.recentMessages p.1,
             st.suppressedKeys.filter (fun k => k ≠ p.1))
          | none => (st.recentMessages, st.suppressedKeys)
        else (st.recentMessages, st.suppressedKeys)
    let rm := rmsk.1
    let sk := rmsk.2
    let ts0 := (mapGet rm key).getD []
    let ts1 := pruneOld ((now : Int) - (loopWindow : Int)) ts0
    let ts2 := ts1 ++ [now]
    let ts3 :=
      if threshold * 2 < ts2.length then ts2.drop (ts2.length - threshold)
      else ts2
    let st1 := { st with recentMessages := mapSet rm key ts3,
                         suppressedKeys := sk }
    if threshold ≤ ts3.length then
      if sk.contains key then (true, st1)
      else
        let st2 := { st1 with suppressedKeys := sk ++ [key] }
        let st3 := queueEntry env st2
          (loopWarningEntry env key ts3.length loopWindow entry.url)
        (true, scheduleUnsuppress st3 key)
    else
      (false, { st1 with suppressedKeys := sk.filter (fun k => k ≠ key) })

/-- The `if (!checkMessageLoop(entry)) queueEntry(entry)` step shared by
every capture path. -/
def processEntry (env : Env) (st : BridgeState) (entry : LogEntry) :
    BridgeState :=
  let r := checkMessageLoop env entry st
  if r.1 then r.2 else queueEntry env r.2 entry

/-- The structured-log entry a console interceptor builds from its
arguments (`createInterceptor`, entry construction). -/
def consoleEntry (env : Env) (level : LogLevel) (args : List JsValue) :
    LogEntry :=
  let base : LogEntry :=
    { kind := .console, level := level.toEventLevel, args := args,
      timestamp := env.nowIso, url := env.href }
  match level, args.head? with
  | .error, some (.errObj _ (some stk)) => { base with stack := some (stk.take 1000) }
  | _, _ => base

/-- `createInterceptor(level)` applied to arguments: the wrapper calls the
original console method first (modelled as a function of an external world
`ω`, returning a result of type `α`), then, when `dev && browser` and the
level is enabled, builds the entry and runs the loop-check / enqueue
pipeline. -/
def interceptorCall {α ω : Type} (orig : ω → List JsValue → α × ω)
    (level : LogLevel) (env : Env) (w : ω) (args : List JsValue)
    (st : BridgeState) : α × ω × BridgeState :=
  let rw := orig w args
  let st' :=
    if env.dev && env.browser &&
        (match st.options with
          | some o => o.levels.contains level
          | none => false) then
      processEntry env st (consoleEntry env level args)
    else st
  (rw.1, rw.2, st')

/-- The `input` argument of `fetch`: a `Request` object (carrying its own
method and url) or anything else (string / `URL` / other, stringified). -/
inductive FetchInput where
  | request (method : Option String) (url : String)
  | other (url : String)
deriving DecidableEq, Repr

/-- The argument pair of a `fetch` call. -/
structure FetchArgs where
  input : FetchInput
  initMethod : Option String := none
deriving DecidableEq, Repr

/-- `getFetchDetails(args)`: returns `(method, url)`. -/
def getFetchDetails (a : FetchArgs) : String × String :=
  match a.input with
  | .request m u => (m.getD "GET", u)
  | .other u => (a.initMethod.getD "GET", u)

/-- A settled `Response`: status plus the body text produced by
`clone().text()` (`none` models an unreadable body, whose read rejects). -/
structure JsResponse where
  status : Nat
  bodyText : Option String := none
deriving DecidableEq, Repr

/-- `readResponseBody(response)` -/
def readResponseBody (opts : Option Options) (r : JsResponse) :
    Option String :=
  match opts with
  | none => none
  | some o =>
    if o.networkBodyLimit.leZero then none
    else
      match r.bodyText with
      | none => none
      | some t => some (t.take (o.networkBodyLimit.toCount t.length))

/-- The network entry built on the success path of the patched fetch. -/
def fetchSuccessEntry (env : Env) (method resolvedUrl : String)
    (r : JsResponse) (opts : Option Options) : LogEntry where
  kind := .network
  level := getNetworkLevel r.status
  args := [.str (method ++ " " ++ resolvedUrl),
           .str ("status: " ++ toString r.status),
           .str ("duration: " ++ toString env.duration ++ "ms")]
  timestamp := env.nowIso
  url := resolvedUrl
  method := some method
  status := some r.status
  duration := some env.duration
  requestType := some .fetch
  pageUrl := some env.href
  responseBody := readResponseBody opts r

/-- The network entry built on the failure path of the patched fetch
(`status: 0`, severity hard-coded to `error`). -/
def fetchFailureEntry (env : Env) (method resolvedUrl : String)
    (err : JsValue) : LogEntry where
  kind := .network
  level := .error
  args := [.str (method ++ " " ++ resolvedUrl),
           .str ("error: " ++
             (match err with
               | .errObj m _ => m
               | v => v.toStringJs)),
           .str ("duration: " ++ toString env.duration ++ "ms")]
  timestamp := env.nowIso
  url := resolvedUrl
  method := some method
  status := some 0
  duration := some env.duration
  requestType := some .fetch
  pageUrl := some env.href
  stack :=
    match err with
    | .errObj _ (some stk) => some (stk.take 1000)
    | _ => none

/-- The continuation of the patched fetch that runs after the awaited
original call resolves (entry construction, loop check, enqueue).  Split
out because deactivation can happen during the await: the continuation
then sees `options = none`. -/
def fetchSuccessContinuation (env : Env) (method resolvedUrl : String)
    (r : JsResponse) (st : BridgeState) : BridgeState :=
  processEntry env st (fetchSuccessEntry env method resolvedUrl r st.options)

/-- The continuation of the patched fetch that runs after the awaited
original call rejects. -/
def fetchFailureContinuation (env : Env) (method resolvedUrl : String)
    (err : JsValue) (st : BridgeState) : BridgeState :=
  processEntry env st (fetchFailureEntry env method resolvedUrl err)

/-- The wrapper installed by `patchFetch`, in the run where no
deactivation interleaves with the awaited call: the original primitive is a
function of an external world, returning either a response or a thrown
value. -/
def wrappedFetch {ω : Type} (resolveUrl : String → String)
    (origFetch : ω → FetchArgs → Except JsValue JsResponse × ω)
    (env : Env) (w : ω) (a : FetchArgs) (st : BridgeState) :
    Except JsValue JsResponse × ω × BridgeState :=
  let md := getFetchDetails a
  let resolvedUrl := resolveUrl md.2
  if !(isNetworkTracked resolveUrl st.options resolvedUrl) then
    let rw := origFetch w a
    (rw.1, rw.2, st)
  else
    let rw := origFetch w a
    match rw.1 with
    | .ok r => (.ok r, rw.2, fetchSuccessContinuation env md.1 resolvedUrl r st)
    | .error e => (.error e, rw.2, fetchFailureContinuation env md.1 resolvedUrl e st)

/-- The per-request metadata recorded by the patched `XMLHttpRequest.open`. -/
structure XhrMeta where
  method : String
  url : String
deriving DecidableEq, Repr

/-- The network entry built by the `loadend` handler of the patched
`XMLHttpRequest.send`. -/
def xhrDoneEntry (env : Env) (method resolvedUrl : String) (status : Nat)
    (responseBody : Option String) : LogEntry where
  kind := .network
  level := getNetworkLevel status
  args := [.str (method ++ " " ++ resolvedUrl),
           .str ("status: " ++ toString status),
           .str ("duration: " ++ toString env.duration ++ "ms")]
  timestamp := env.nowIso
  url := resolvedUrl
  method := some method
  status := some status
  duration := some env.duration
  requestType := some .xhr
  pageUrl := some env.href
  responseBody := responseBody

/-- The `loadend` handler `onDone` installed by the patched
`XMLHttpRequest.send` (`meta` is `none` when `open` was never observed;
`status` is `this.status || 0`, already a natural number). -/
def xhrOnDone (resolveUrl : String → String) (env : Env)
    (meta : Option XhrMeta) (status : Nat) (responseText : Option String)
    (st : BridgeState) : BridgeState :=
  match meta with
  | none => st
  | some m =>
    let resolvedUrl := resolveUrl m.url
    if resolvedUrl = "" then st
    else if !(isNetworkTracked resolveUrl st.options resolvedUrl) then st
    else
      let responseBody :=
        match st.options with
        | none => none
        | some o =>
          if o.networkBodyLimit.leZero then none
          else
            match responseText with
            | none => none
            | some t => some (t.take (o.networkBodyLimit.toCount t.length))
      processEntry env st (xhrDoneEntry env m.method resolvedUrl status responseBody)

/-- `JSON.stringify` of one queued entry (throws iff some argument is
circular; the other fields always serialize). -/
def serializeEntry (e : LogEntry) : Except Unit String :=
  (e.args.mapM JsValue.jsonStringify).map
    (fun parts => "\x7b" ++ String.intercalate "," parts ++ "\x7d")

/-- `JSON.stringify(batch.length === 1 ? batch[0] : { batch })` -/
def serializeBody (batch : List LogEntry) : Except Unit String :=
  match batch with
  | [e] => serializeEntry e
  | es =>
    (es.mapM serializeEntry).map
      (fun parts => "\x7b\x22batch\x22:[" ++ String.intercalate "," parts ++ "]\x7d")

/-- The POST request `sendBatch` hands to its sender.  `viaOriginal` is
true iff the sender is the `originalFetch` snapshot (`originalFetch ??
fetch` with a non-null snapshot). -/
structure SendRequest where
  viaOriginal : Bool
  url : String
  body : String
deriving DecidableEq, Repr

/-- `sendBatch()` up to the point where the request is handed to the
sender.  The output is the state after the synchronous part of the call
together with the request actually issued (`none` when the function
returned early, or when `JSON.stringify` threw — in that case the batch
has already been spliced off and `isSending` is already `true`, and the
exception propagates before any handler is attached). -/
def sendBatch (st : BridgeState) : BridgeState × Option SendRequest :=
  match st.options with
  | none => (st, none)
  | some o =>
    if st.isSending || st.logQueue.length = 0 then (st, none)
    else
      let n := o.batchSize.toCount st.logQueue.length
      let batch := st.logQueue.take n
      let st1 := { st with isSending := true, logQueue := st.logQueue.drop n }
      match serializeBody batch with
      | .error _ => (st1, none)
      | .ok body =>
        (st1, some { viaOriginal := st.originalFetchSaved,
                     url := o.endpoint, body := body })

/-- The `.finally` handler of `sendBatch`'s request: clears `isSending`
and reschedules if the queue is non-empty. -/
def sendBatchSettle (st : BridgeState) : BridgeState :=
  let st1 := { st with isSending := false }
  if 0 < st1.logQueue.length then scheduleBatch st1 else st1

/-- The body of the timer scheduled by `scheduleBatch`: clears the timer
flag, then runs the synchronous part of `sendBatch`. -/
def batchTimerFire (st : BridgeState) : BridgeState × Option SendRequest :=
  sendBatch { st with batchTimer := false }

/-- `patchNetwork()` (flag-level model: records that the network
primitives are wrapped and that the original snapshots are saved). -/
def patchNetworkS (st : BridgeState) : BridgeState :=
  if st.networkPatched then st
  else { st with networkPatched := true, originalFetchSaved := true,
                 fetchWrapped := true }

/-- `restoreNetwork()` -/
def restoreNetworkS (st : BridgeState) : BridgeState :=
  if !st.networkPatched then st
  else { st with
    fetchWrapped := if st.originalFetchSaved then false else st.fetchWrapped,
    networkPatched := false }

/-- `initConsolebridge(userOptions)` (current version: bumps the session
id and clamps the loop/queue options; note that it does NOT touch
`logQueue`, `recentMessages`, `suppressedKeys` or `batchTimer`). -/
def initConsolebridge (env : Env) (user : ConsoleBridgeOptions)
    (st : BridgeState) : BridgeState :=
  if !env.browser || !env.dev then st else
  let o := resolveOptions user
  let st1 := { st with sessionId := st.sessionId + 1, options := some o }
  let st2 := if o.captureNetwork then patchNetworkS st1 else restoreNetworkS st1
  let st3 :=
    if o.captureErrors then { st2 with errorListenersAttached := true }
    else { st2 with errorListenersAttached := false }
  { st3 with isInitialized := true }

/-- `restoreConsole()` (current version). -/
def restoreConsole (env : Env) (st : BridgeState) : BridgeState :=
  if !env.browser then st else
  let st1 := { st with sessionId := st.sessionId + 1 }
  let st2 := restoreNetworkS st1
  { st2 with errorListenersAttached := false,
             recentMessages := [], suppressedKeys := [],
             logQueue := [], isSending := false, batchTimer := false,
             options := none, isInitialized := false }

/-! ### Concrete fixtures used by witnesses and counterexamples -/

/-- A concrete development-mode browser environment. -/
def envT : Env where
  dev := true
  browser := true
  now := 0
  nowIso := "t0"
  href := "page"
  duration := 7

/-- The environment of a capture at time `t` (dev-mode browser). -/
def envAt (t : Nat) : Env where
  dev := true
  browser := true
  now := t
  nowIso := toString t
  href := "page"
  duration := 0

/-- One `console.log(msg)` call at time `t`: the capture pipeline the
interceptor runs after delegating to the original method. -/
def processLogAt (msg : String) (st : BridgeState) (t : Nat) : BridgeState :=
  processEntry (envAt t) st (consoleEntry (envAt t) .log [.str msg])

/-- A sequence of `console.log(msg)` calls at the given times. -/
def processLogsAt (msg : String) : List Nat → BridgeState → BridgeState
  | [], st => st
  | t :: ts, st => processLogsAt msg ts (processLogAt msg st t)

/-- A plain queued console entry. -/
def entryA : LogEntry where
  kind := .console
  level := .log
  args := [.str "a"]
  timestamp := "t0"
  url := "page"

/-- A console entry whose argument `JSON.stringify` cannot serialize. -/
def entryCirc : LogEntry where
  kind := .console
  level := .log
  args := [.circular]
  timestamp := "t0"
  url := "page"

/-- Options with the smallest legal queue bound (`maxQueueSize = 10`). -/
def optsQ10 : Options := { DEFAULT_OPTIONS with maxQueueSize := 10 }

/-- An active state whose queue is full at `maxQueueSize = 10`. -/
def stC3 : BridgeState where
  options := some optsQ10
  logQueue := List.replicate 10 entryA
  sessionId := 1

/-- An active mid-session state with a non-empty queue, loop tables and a
pending batch timer (input of the C4 counterexample). -/
def stActiveA : BridgeState where
  options := some DEFAULT_OPTIONS
  logQueue := [entryA]
  batchTimer := true
  recentMessages := [("k", [0])]
  suppressedKeys := ["k"]
  sessionId := 1
  isInitialized := true

/-- Resolved options with `loopThreshold = 5` (the C2 scenario). -/
def opts5 : Options := resolveOptions { loopThreshold := some (.finite 5) }

/-- A freshly activated state carrying `opts5`. -/
def st5 : BridgeState where
  options := some opts5
  sessionId := 1

/-- Resolved options with `loopThreshold = 2` (the C8 counterexample). -/
def opts2 : Options := resolveOptions { loopThreshold := some (.finite 2) }

/-- A freshly activated state carrying `opts2`. -/
def stC8 : BridgeState where
  options := some opts2
  sessionId := 1

/-- An active state whose only queued entry is unserializable (input of
the C10 scenario). -/
def stC10 : BridgeState where
  options := some DEFAULT_OPTIONS
  logQueue := [entryCirc]
  originalFetchSaved := true
  fetchWrapped := true
  networkPatched := true
  sessionId := 1

/-- A state already tracking four occurrences of the key "x" under
`loopThreshold = 2` (input of the C8 amended witness). -/
def stC8b : BridgeState where
  options := some opts2
  recentMessages := [("x", [0, 0, 0, 0])]
  suppressedKeys := ["x"]
  sessionId := 1

/-- The console event with first argument "x". -/
def eC8 : LogEntry := consoleEntry (envAt 0) .log [.str "x"]

/-- A stub original fetch primitive over a trivial world: always returns
status 200. -/
def fetchStub : Unit → FetchArgs → Except JsValue JsResponse × Unit :=
  fun u _ => (.ok { status := 200, bodyText := some "ok" }, u)

/-- A fetch call that targets the delivery endpoint itself. -/
def fetchArgsEndpoint : FetchArgs where
  input := .other "/api/console-bridge"

/-- An active state with one well-formed queued entry and a saved original
fetch (input of the C5 witness). -/
def stC5f : BridgeState where
  options := some DEFAULT_OPTIONS
  logQueue := [entryA]
  originalFetchSaved := true
  fetchWrapped := true
  networkPatched := true
  sessionId := 1

/-- The delivery request `sendBatch` issues from `stC5f`. -/
def reqC5 : SendRequest where
  viaOriginal := true
  url := "/api/console-bridge"
  body := "\x7b\x22a\x22\x7d"

/-- A loop-unsuppression timer scheduled during session 1. -/
def cbW : UnsuppressCb where
  key := "k"
  loopWindow := 5000
  threshold := 10
  session := 1

/-! ### Helper lemmas -/

theorem scheduleBatch_eq (st : BridgeState) :
    scheduleBatch st = st ∨ scheduleBatch st = { st with batchTimer := true } := by
  unfold scheduleBatch
  cases ho : st.options with
  | none => exact Or.inl rfl
  | some o =>
    by_cases hb : st.batchTimer
    · simp [hb]
    · simp [hb]

theorem scheduleBatch_logQueue (st : BridgeState) :
    (scheduleBatch st).logQueue = st.logQueue := by
  rcases scheduleBatch_eq st with h | h <;> rw [h]

theorem scheduleBatch_recentMessages (st : BridgeState) :
    (scheduleBatch st).recentMessages = st.recentMessages := by
  rcases scheduleBatch_eq st with h | h <;> rw [h]

theorem scheduleBatch_suppressedKeys (st : BridgeState) :
    (scheduleBatch st).suppressedKeys = st.suppressedKeys := by
  rcases scheduleBatch_eq st with h | h <;> rw [h]

theorem scheduleBatch_options (st : BridgeState) :
    (scheduleBatch st).options = st.options := by
  rcases scheduleBatch_eq st with h | h <;> rw [h]

theorem scheduleBatch_sessionId (st : BridgeState) :
    (scheduleBatch st).sessionId = st.sessionId := by
  rcases scheduleBatch_eq st with h | h <;> rw [h]

theorem scheduleBatch_pendingUnsuppress (st : BridgeState) :
    (scheduleBatch st).pendingUnsuppress = st.pendingUnsuppress := by
  rcases scheduleBatch_eq st with h | h <;> rw [h]

theorem scheduleBatch_isSending (st : BridgeState) :
    (scheduleBatch st).isSending = st.isSending := by
  rcases scheduleBatch_eq st with h | h <;> rw [h]

/-- `queueEntry` computed under an active dev/browser session. -/
theorem queueEntry_active (env : Env) (st : BridgeState) (e : LogEntry)
    (o : Options) (hdev : env.dev = true) (hbrowser : env.browser = true)
    (hopt : st.options = some o) :
    queueEntry env st e =
      scheduleBatch { st with logQueue :=
        (if o.maxQueueSize ≤ st.logQueue.length then
          st.logQueue.drop (max 1 (o.maxQueueSize / 10))
         else st.logQueue) ++ [e] } := by
  unfold queueEntry
  rw [hdev, hbrowser, hopt]
  simp

theorem queueEntry_logQueue_eq (env : Env) (st : BridgeState) (e : LogEntry)
    (o : Options) (hdev : env.dev = true) (hbrowser : env.browser = true)
    (hopt : st.options = some o) :
    (queueEntry env st e).logQueue =
      (if o.maxQueueSize ≤ st.logQueue.length then
        st.logQueue.drop (max 1 (o.maxQueueSize / 10))
       else st.logQueue) ++ [e] := by
  rw [queueEntry_active env st e o hdev hbrowser hopt, scheduleBatch_logQueue]

theorem queueEntry_split (env : Env) (st : BridgeState) (e : LogEntry) :
    queueEntry env st e = st ∨
    ∃ q : List LogEntry,
      queueEntry env st e = scheduleBatch { st with logQueue := q } := by
  unfold queueEntry
  split
  · exact Or.inl rfl
  · cases ho : st.options with
    | none => exact Or.inl rfl
    | some o => exact Or.inr ⟨_, rfl⟩

theorem queueEntry_recentMessages (env : Env) (st : BridgeState) (e : LogEntry) :
    (queueEntry env st e).recentMessages = st.recentMessages := by
  rcases queueEntry_split env st e with h | ⟨q, h⟩ <;>
    rw [h] <;> try rw [scheduleBatch_recentMessages]

theorem queueEntry_suppressedKeys (env : Env) (st : BridgeState) (e : LogEntry) :
    (queueEntry env st e).suppressedKeys = st.suppressedKeys := by
  rcases queueEntry_split env st e with h | ⟨q, h⟩ <;>
    rw [h] <;> try rw [scheduleBatch_suppressedKeys]

theorem queueEntry_options (env : Env) (st : BridgeState) (e : LogEntry) :
    (queueEntry env st e).options = st.options := by
  rcases queueEntry_split env st e with h | ⟨q, h⟩ <;>
    rw [h] <;> try rw [scheduleBatch_options]

theorem queueEntry_sessionId (env : Env) (st : BridgeState) (e : LogEntry) :
    (queueEntry env st e).sessionId = st.sessionId := by
  rcases queueEntry_split env st e with h | ⟨q, h⟩ <;>
    rw [h] <;> try rw [scheduleBatch_sessionId]

theorem queueEntry_pendingUnsuppress (env : Env) (st : BridgeState) (e : LogEntry) :
    (queueEntry env st e).pendingUnsuppress = st.pendingUnsuppress := by
  rcases queueEntry_split env st e with h | ⟨q, h⟩ <;>
    rw [h] <;> try rw [scheduleBatch_pendingUnsuppress]

theorem queueEntry_isSending (env : Env) (st : BridgeState) (e : LogEntry) :
    (queueEntry env st e).isSending = st.isSending := by
  rcases queueEntry_split env st e with h | ⟨q, h⟩ <;>
    rw [h] <;> try rw [scheduleBatch_isSending]

/-- `getNetworkLevel` as a propositional case split. -/
theorem getNetworkLevel_eq (s : Nat) :
    getNetworkLevel s =
      if s = 0 ∨ 500 ≤ s then .error
      else if 400 ≤ s then .warn else .network := by
  unfold getNetworkLevel
  by_cases h1 : s = 0 ∨ 500 ≤ s
  · have hb : (decide (s = 0) || decide (500 ≤ s)) = true := by
      rcases h1 with h | h <;> simp [h]
    rw [hb, if_pos h1]
    simp
  · have h2 : s ≠ 0 := by omega
    have h3 : ¬ 500 ≤ s := by omega
    have hb : (decide (s = 0) || decide (500 ≤ s)) = false := by
      simp [h2, h3]
    rw [hb, if_neg h1]
    simp

/-! ### Claim theorems -/

/-- C6: the severity of a network-call event is a total function of the
status code — status 0 or ≥ 500 gives `error`, 400–499 gives `warn`, any
other status gives `network`; concretely 503 ↦ error, 404 ↦ warn,
200 ↦ network; and the fetch success path, the XHR path and the fetch
transport-failure path (status 0) all carry exactly this severity. -/
theorem C6_network_severity :
    (∀ s : Nat, s = 0 ∨ 500 ≤ s → getNetworkLevel s = .error) ∧
    (∀ s : Nat, 400 ≤ s → s ≤ 499 → getNetworkLevel s = .warn) ∧
    (∀ s : Nat, s ≠ 0 → s < 400 → getNetworkLevel s = .network) ∧
    (getNetworkLevel 503 = .error ∧ getNetworkLevel 404 = .warn ∧
      getNetworkLevel 200 = .network) ∧
    (∀ (env : Env) (method url : String) (r : JsResponse) (opts : Option Options),
      (fetchSuccessEntry env method url r opts).level = getNetworkLevel r.status) ∧
    (∀ (env : Env) (method url : String) (status : Nat) (body : Option String),
      (xhrDoneEntry env method url status body).level = getNetworkLevel status) ∧
    (∀ (env : Env) (method url : String) (err : JsValue),
      (fetchFailureEntry env method url err).level = getNetworkLevel 0 ∧
      (fetchFailureEntry env method url err).status = some 0) := by
  refine ⟨?_, ?_, ?_, by decide, fun _ _ _ _ _ => rfl, fun _ _ _ _ _ => rfl,
    fun _ _ _ _ => ⟨rfl, rfl⟩⟩
  · intro s hs
    rw [getNetworkLevel_eq, if_pos hs]
  · intro s h4 h5
    rw [getNetworkLevel_eq, if_neg (by omega), if_pos h4]
  · intro s h0 h4
    rw [getNetworkLevel_eq, if_neg (by omega), if_neg (by omega)]

/-- Witness for C6 at the statuses named by the claim. -/
theorem C6_network_severity_witness :
    ((500 ≤ 503) ∧ getNetworkLevel 503 = .error) ∧
    ((400 ≤ 404) ∧ (404 ≤ 499) ∧ getNetworkLevel 404 = .warn) ∧
    ((404 : Nat) ≠ 0 ∧ (200 : Nat) ≠ 0 ∧ (200 < 400) ∧ getNetworkLevel 200 = .network) :=
  ⟨⟨by decide, C6_network_severity.1 503 (Or.inr (by decide))⟩,
   ⟨by decide, by decide, C6_network_severity.2.1 404 (by decide) (by decide)⟩,
   ⟨by decide, by decide, by decide,
     C6_network_severity.2.2.1 200 (by decide) (by decide)⟩⟩

/-- C3: enqueue is a bounded drop-oldest operation — when the queue holds
`maxQueueSize` entries, exactly `max 1 (maxQueueSize / 10)` oldest entries
are evicted before appending; every enqueue preserves the bound `length ≤
maxQueueSize`; with `maxQueueSize = 10`, a full queue loses exactly its 1
oldest entry and ends back at length 10. -/
theorem C3_enqueue_drop_oldest (env : Env) (st : BridgeState) (e : LogEntry)
    (o : Options) (hdev : env.dev = true) (hbrowser : env.browser = true)
    (hopt : st.options = some o) (hpos : 1 ≤ o.maxQueueSize) :
    (st.logQueue.length = o.maxQueueSize →
       (queueEntry env st e).logQueue =
         st.logQueue.drop (max 1 (o.maxQueueSize / 10)) ++ [e]) ∧
    (st.logQueue.length ≤ o.maxQueueSize →
       (queueEntry env st e).logQueue.length ≤ o.maxQueueSize) ∧
    (o.maxQueueSize = 10 → st.logQueue.length = 10 →
       (queueEntry env st e).logQueue = st.logQueue.drop 1 ++ [e] ∧
       (queueEntry env st e).logQueue.length = 10) := by
  have hlog := queueEntry_logQueue_eq env st e o hdev hbrowser hopt
  refine ⟨?_, ?_, ?_⟩
  · intro hfull
    rw [hlog, if_pos (le_of_eq hfull.symm)]
  · intro hle
    rw [hlog]
    by_cases hc : o.maxQueueSize ≤ st.logQueue.length
    · rw [if_pos hc]
      have hd : 1 ≤ max 1 (o.maxQueueSize / 10) := le_max_left _ _
      simp only [List.length_append, List.length_drop, List.length_cons,
        List.length_nil]
      omega
    · rw [if_neg hc]
      simp only [List.length_append, List.length_cons, List.length_nil]
      omega
  · intro hm hfull
    have h1 : max 1 (o.maxQueueSize / 10) = 1 := by rw [hm]; decide
    constructor
    · rw [hlog, if_pos (by omega), h1]
    · rw [hlog, if_pos (by omega), h1]
      simp only [List.length_append, List.length_drop, List.length_cons,
        List.length_nil]
      omega

/-- Witness for C3: the concrete `maxQueueSize = 10` scenario on a full
queue of 10 entries. -/
theorem C3_enqueue_drop_oldest_witness :
    (stC3.logQueue.length = 10 ∧ optsQ10.maxQueueSize = 10 ∧
      stC3.options = some optsQ10) ∧
    (queueEntry envT stC3 entryA).logQueue = stC3.logQueue.drop 1 ++ [entryA] ∧
    (queueEntry envT stC3 entryA).logQueue.length = 10 :=
  ⟨⟨by decide, by decide, rfl⟩,
   (C3_enqueue_drop_oldest envT stC3 entryA optsQ10 rfl rfl rfl
     (by decide)).2.2 (by decide) (by decide)⟩

theorem safeInt_of_not_finite (v : JsNum) (lo hi fb : Nat)
    (h : v.isFinite = false) : safeInt v lo hi fb = fb := by
  cases v with
  | finite q => simp [JsNum.isFinite] at h
  | nan => rfl
  | inf => rfl
  | negInf => rfl

theorem safeInt_bounds (v : JsNum) (lo hi fb : Nat) (hlohi : lo ≤ hi)
    (hfb1 : lo ≤ fb) (hfb2 : fb ≤ hi) :
    lo ≤ safeInt v lo hi fb ∧ safeInt v lo hi fb ≤ hi := by
  cases v with
  | finite q =>
    have h1 : (lo : ℤ) ≤ min (hi : ℤ) (max (lo : ℤ) (Rat.floor q)) :=
      le_min (by exact_mod_cast hlohi) (le_max_left _ _)
    have h2 : min (hi : ℤ) (max (lo : ℤ) (Rat.floor q)) ≤ (hi : ℤ) :=
      min_le_left _ _
    show lo ≤ (min (hi : ℤ) (max (lo : ℤ) (Rat.floor q))).toNat ∧
        (min (hi : ℤ) (max (lo : ℤ) (Rat.floor q))).toNat ≤ hi
    omega
  | nan => exact ⟨hfb1, hfb2⟩
  | inf => exact ⟨hfb1, hfb2⟩
  | negInf => exact ⟨hfb1, hfb2⟩

/-- C7 counterexample: the claim says every numeric option field —
`batchSize` among them — is clamped, with non-finite values falling back
to the default.  But resolution passes `batchSize = NaN` through
unchanged: it is neither clamped into a safe range nor replaced by the
default `10`. -/
theorem C7_counterexample :
    (resolveOptions { batchSize := some JsNum.nan }).batchSize = JsNum.nan ∧
    JsNum.nan.isFinite = false ∧
    JsNum.nan ≠ DEFAULT_OPTIONS.batchSize :=
  ⟨rfl, rfl, by decide⟩

/-- C7 (amended): only `loopThreshold`, `loopWindow` and `maxQueueSize`
are clamped at resolution time (into [2,1000], [100,60000], [10,10000]),
with non-finite or missing values falling back to the defaults; the other
numeric fields (`batchSize`, `batchDelay`, `networkBodyLimit`) are merged
verbatim — missing values get the default, but supplied values (finite or
not) are not clamped. -/
theorem C7_clamping_amended (user : ConsoleBridgeOptions) :
    (2 ≤ (resolveOptions user).loopThreshold ∧
      (resolveOptions user).loopThreshold ≤ 1000) ∧
    (100 ≤ (resolveOptions user).loopWindow ∧
      (resolveOptions user).loopWindow ≤ 60000) ∧
    (10 ≤ (resolveOptions user).maxQueueSize ∧
      (resolveOptions user).maxQueueSize ≤ 10000) ∧
    (∀ v : JsNum, v.isFinite = false →
      (user.loopThreshold = some v →
        (resolveOptions user).loopThreshold = DEFAULT_OPTIONS.loopThreshold) ∧
      (user.loopWindow = some v →
        (resolveOptions user).loopWindow = DEFAULT_OPTIONS.loopWindow) ∧
      (user.maxQueueSize = some v →
        (resolveOptions user).maxQueueSize = DEFAULT_OPTIONS.maxQueueSize)) ∧
    (user.loopThreshold = none →
      (resolveOptions user).loopThreshold = DEFAULT_OPTIONS.loopThreshold) ∧
    (user.loopWindow = none →
      (resolveOptions user).loopWindow = DEFAULT_OPTIONS.loopWindow) ∧
    (user.maxQueueSize = none →
      (resolveOptions user).maxQueueSize = DEFAULT_OPTIONS.maxQueueSize) ∧
    ((resolveOptions user).batchSize = user.batchSize.getD DEFAULT_OPTIONS.batchSize) ∧
    ((resolveOptions user).batchDelay = user.batchDelay.getD DEFAULT_OPTIONS.batchDelay) ∧
    ((resolveOptions user).networkBodyLimit =
      user.networkBodyLimit.getD DEFAULT_OPTIONS.networkBodyLimit) := by
  refine ⟨?_, ?_, ?_, ?_, ?_, ?_, ?_, rfl, rfl, rfl⟩
  · exact safeInt_bounds _ 2 1000 10 (by decide) (by decide) (by decide)
  · exact safeInt_bounds _ 100 60000 5000 (by decide) (by decide) (by decide)
  · exact safeInt_bounds _ 10 10000 200 (by decide) (by decide) (by decide)
  · intro v hv
    refine ⟨?_, ?_, ?_⟩ <;> intro hu <;>
      simp only [resolveOptions, hu, Option.getD_some] <;>
      exact safeInt_of_not_finite v _ _ _ hv
  · intro hu
    simp only [resolveOptions, hu, Option.getD_none]
    decide
  · intro hu
    simp only [resolveOptions, hu, Option.getD_none]
    decide
  · intro hu
    simp only [resolveOptions, hu, Option.getD_none]
    decide

/-- Witness for C7 (amended): `Infinity` for `loopThreshold` falls back to
the default 10, and an over-large finite value is clamped into [2,1000]. -/
theorem C7_clamping_amended_witness :
    (JsNum.inf.isFinite = false ∧
      (resolveOptions { loopThreshold := some JsNum.inf }).loopThreshold =
        DEFAULT_OPTIONS.loopThreshold) ∧
    (2 ≤ (resolveOptions { loopThreshold := some (JsNum.finite 99999) }).loopThreshold ∧
      (resolveOptions { loopThreshold := some (JsNum.finite 99999) }).loopThreshold ≤ 1000) :=
  ⟨⟨rfl, ((C7_clamping_amended _).2.2.2.1 JsNum.inf rfl).1 rfl⟩,
   (C7_clamping_amended _).1⟩

theorem patchNetworkS_fields (st : BridgeState) :
    (patchNetworkS st).logQueue = st.logQueue ∧
    (patchNetworkS st).recentMessages = st.recentMessages ∧
    (patchNetworkS st).suppressedKeys = st.suppressedKeys ∧
    (patchNetworkS st).batchTimer = st.batchTimer ∧
    (patchNetworkS st).sessionId = st.sessionId ∧
    (patchNetworkS st).options = st.options ∧
    (patchNetworkS st).pendingUnsuppress = st.pendingUnsuppress := by
  unfold patchNetworkS
  split
  · exact ⟨rfl, rfl, rfl, rfl, rfl, rfl, rfl⟩
  · exact ⟨rfl, rfl, rfl, rfl, rfl, rfl, rfl⟩

theorem restoreNetworkS_fields (st : BridgeState) :
    (restoreNetworkS st).logQueue = st.logQueue ∧
    (restoreNetworkS st).recentMessages = st.recentMessages ∧
    (restoreNetworkS st).suppressedKeys = st.suppressedKeys ∧
    (restoreNetworkS st).batchTimer = st.batchTimer ∧
    (restoreNetworkS st).sessionId = st.sessionId ∧
    (restoreNetworkS st).options = st.options ∧
    (restoreNetworkS st).pendingUnsuppress = st.pendingUnsuppress := by
  unfold restoreNetworkS
  split
  · exact ⟨rfl, rfl, rfl, rfl, rfl, rfl, rfl⟩
  · exact ⟨rfl, rfl, rfl, rfl, rfl, rfl, rfl⟩

/-- `initConsolebridge` in a dev browser, with the guard discharged. -/
theorem initConsolebridge_active (env : Env) (user : ConsoleBridgeOptions)
    (st : BridgeState) (hdev : env.dev = true) (hbrowser : env.browser = true) :
    initConsolebridge env user st =
      (let o := resolveOptions user
       let st1 := { st with sessionId := st.sessionId + 1, options := some o }
       let st2 := if o.captureNetwork then patchNetworkS st1 else restoreNetworkS st1
       let st3 :=
         if o.captureErrors then { st2 with errorListenersAttached := true }
         else { st2 with errorListenersAttached := false }
       { st3 with isInitialized := true }) := by
  unfold initConsolebridge
  rw [hdev, hbrowser]
  rfl

theorem restoreConsole_fields (env : Env) (st : BridgeState)
    (hb : env.browser = true) :
    (restoreConsole env st).options = none ∧
    (restoreConsole env st).sessionId = st.sessionId + 1 ∧
    (restoreConsole env st).logQueue = [] ∧
    (restoreConsole env st).recentMessages = [] ∧
    (restoreConsole env st).suppressedKeys = [] ∧
    (restoreConsole env st).batchTimer = false ∧
    (restoreConsole env st).isSending = false := by
  unfold restoreConsole
  rw [hb]
  refine ⟨rfl, ?_, rfl, rfl, rfl, rfl, rfl⟩
  exact (restoreNetworkS_fields _).2.2.2.2.1

/-- C4 counterexample: a second activation over an active session leaves
the queue, the loop tables and the pending batch timer exactly as they
were — contradicting the claim that activation destroys the prior
session's state the way deactivation does. -/
theorem C4_counterexample :
    stActiveA.logQueue = [entryA] ∧
    (initConsolebridge envT {} stActiveA).logQueue = [entryA] ∧
    ([entryA] : List LogEntry) ≠ [] ∧
    (initConsolebridge envT {} stActiveA).recentMessages = [("k", [0])] ∧
    (initConsolebridge envT {} stActiveA).suppressedKeys = ["k"] ∧
    (initConsolebridge envT {} stActiveA).batchTimer = true := by
  refine ⟨rfl, rfl, ?_, rfl, rfl, rfl⟩
  decide

/-- C4 (amended): a new activation while active bumps the session id (so
stale unsuppress timers bail) and replaces the configuration, but keeps
the outbound queue, the loop-detector tables and the pending batch timer;
only deactivation (`restoreConsole`) empties the queue, clears the tables
and cancels the timer. -/
theorem C4_activation_preserves_state (env : Env) (user : ConsoleBridgeOptions)
    (st : BridgeState) (hdev : env.dev = true) (hbrowser : env.browser = true) :
    ((initConsolebridge env user st).logQueue = st.logQueue ∧
     (initConsolebridge env user st).recentMessages = st.recentMessages ∧
     (initConsolebridge env user st).suppressedKeys = st.suppressedKeys ∧
     (initConsolebridge env user st).batchTimer = st.batchTimer ∧
     (initConsolebridge env user st).sessionId = st.sessionId + 1 ∧
     (initConsolebridge env user st).options = some (resolveOptions user)) ∧
    ((restoreConsole env st).logQueue = [] ∧
     (restoreConsole env st).recentMessages = [] ∧
     (restoreConsole env st).suppressedKeys = [] ∧
     (restoreConsole env st).batchTimer = false ∧
     (restoreConsole env st).options = none ∧
     (restoreConsole env st).sessionId = st.sessionId + 1) := by
  constructor
  · rw [initConsolebridge_active env user st hdev hbrowser]
    by_cases hn : (resolveOptions user).captureNetwork <;>
      by_cases he : (resolveOptions user).captureErrors <;>
        simp [hn, he, patchNetworkS_fields, restoreNetworkS_fields,
          (patchNetworkS_fields _).1, (patchNetworkS_fields _).2.1,
          (patchNetworkS_fields _).2.2.1, (patchNetworkS_fields _).2.2.2.1,
          (patchNetworkS_fields _).2.2.2.2.1, (patchNetworkS_fields _).2.2.2.2.2.1,
          (restoreNetworkS_fields _).1, (restoreNetworkS_fields _).2.1,
          (restoreNetworkS_fields _).2.2.1, (restoreNetworkS_fields _).2.2.2.1,
          (restoreNetworkS_fields _).2.2.2.2.1, (restoreNetworkS_fields _).2.2.2.2.2.1]
  · have h := restoreConsole_fields env st hbrowser
    exact ⟨h.2.2.1, h.2.2.2.1, h.2.2.2.2.1, h.2.2.2.2.2.1, h.1, h.2.1⟩

/-- Witness for C4 (amended) at the concrete mid-session state. -/
theorem C4_activation_preserves_state_witness :
    (initConsolebridge envT {} stActiveA).logQueue = stActiveA.logQueue ∧
    (initConsolebridge envT {} stActiveA).sessionId = stActiveA.sessionId + 1 ∧
    (restoreConsole envT stActiveA).logQueue = [] ∧
    (restoreConsole envT stActiveA).batchTimer = false :=
  have h := C4_activation_preserves_state envT {} stActiveA rfl rfl
  ⟨h.1.1, h.1.2.2.2.2.1, h.2.1, h.2.2.2.2.1⟩

theorem isNetworkTracked_endpoint_false (resolveUrl : String → String)
    (o : Options) (target : String)
    (h : resolveUrl target = resolveUrl o.endpoint) :
    isNetworkTracked resolveUrl (some o) target = false := by
  simp [isNetworkTracked, h]

theorem sendBatch_opts_none (st : BridgeState) (h : st.options = none) :
    sendBatch st = (st, none) := by
  unfold sendBatch
  rw [h]

theorem sendBatch_noWork (st : BridgeState)
    (h : st.isSending = true ∨ st.logQueue.length = 0) :
    sendBatch st = (st, none) := by
  unfold sendBatch
  cases ho : st.options with
  | none => rfl
  | some o =>
    have hc : (st.isSending || decide (st.logQueue.length = 0)) = true := by
      rcases h with h | h
      · rw [h]; rfl
      · simp [h]
    simp only [hc, if_true]

theorem sendBatch_ready (st : BridgeState) (o : Options)
    (hopt : st.options = some o) (hns : st.isSending = false)
    (hne : st.logQueue.length ≠ 0) :
    sendBatch st =
      (match serializeBody
          (st.logQueue.take (o.batchSize.toCount st.logQueue.length)) with
       | .error _ =>
         ({ st with
             isSending := true
             logQueue := st.logQueue.drop (o.batchSize.toCount st.logQueue.length) },
          none)
       | .ok body =>
         ({ st with
             isSending := true
             logQueue := st.logQueue.drop (o.batchSize.toCount st.logQueue.length) },
          some { viaOriginal := st.originalFetchSaved, url := o.endpoint,
                 body := body })) := by
  unfold sendBatch
  rw [hopt]
  have hc : (st.isSending || decide (st.logQueue.length = 0)) = false := by
    simp [hns, hne]
  simp only [hc, Bool.false_eq_true, if_false]

/-- C5: a delivery request issued by the outbound queue is never
re-captured as a network event — (i) any URL resolving to the configured
endpoint is untracked, so (ii) even a fetch that goes through the wrapper
produces no state change when it targets the endpoint, (iii) every request
`sendBatch` issues targets exactly the endpoint and uses the saved
original fetch snapshot whenever one exists, and (iv) neither `sendBatch`
nor its settle handler ever adds an entry to the queue. -/
theorem C5_no_self_observation :
    (∀ (resolveUrl : String → String) (o : Options) (target : String),
       resolveUrl target = resolveUrl o.endpoint →
       isNetworkTracked resolveUrl (some o) target = false) ∧
    (∀ (ω : Type) (resolveUrl : String → String)
       (origFetch : ω → FetchArgs → Except JsValue JsResponse × ω)
       (env : Env) (w : ω) (a : FetchArgs) (st : BridgeState) (o : Options),
       st.options = some o →
       resolveUrl (resolveUrl (getFetchDetails a).2) = resolveUrl o.endpoint →
       (wrappedFetch resolveUrl origFetch env w a st).2.2 = st) ∧
    (∀ (st : BridgeState) (o : Options) (req : SendRequest),
       st.options = some o → (sendBatch st).2 = some req →
       req.url = o.endpoint ∧ req.viaOriginal = st.originalFetchSaved) ∧
    (∀ st : BridgeState, (sendBatch st).1.logQueue.length ≤ st.logQueue.length) ∧
    (∀ st : BridgeState, (sendBatchSettle st).logQueue = st.logQueue) := by
  refine ⟨isNetworkTracked_endpoint_false, ?_, ?_, ?_, ?_⟩
  · intro ω resolveUrl origFetch env w a st o hopt h
    have hf := isNetworkTracked_endpoint_false resolveUrl o
      (resolveUrl (getFetchDetails a).2) h
    unfold wrappedFetch
    simp [hopt, hf]
  · intro st o req hopt hsend
    by_cases hns : st.isSending = true
    · rw [sendBatch_noWork st (Or.inl hns)] at hsend
      simp at hsend
    · by_cases hne : st.logQueue.length = 0
      · rw [sendBatch_noWork st (Or.inr hne)] at hsend
        simp at hsend
      · have hns' : st.isSending = false := by
          simp at hns; exact hns
        rw [sendBatch_ready st o hopt hns' hne] at hsend
        cases hser : serializeBody
            (st.logQueue.take (o.batchSize.toCount st.logQueue.length)) with
        | error u =>
          rw [hser] at hsend
          simp at hsend
        | ok body =>
          rw [hser] at hsend
          simp only [Option.some.injEq] at hsend
          subst hsend
          exact ⟨rfl, rfl⟩
  · intro st
    cases ho : st.options with
    | none => rw [sendBatch_opts_none st ho]
    | some o =>
      by_cases hns : st.isSending = true
      · rw [sendBatch_noWork st (Or.inl hns)]
      · by_cases hne : st.logQueue.length = 0
        · rw [sendBatch_noWork st (Or.inr hne)]
        · have hns' : st.isSending = false := by
            simp at hns; exact hns
          rw [sendBatch_ready st o ho hns' hne]
          cases hser : serializeBody
              (st.logQueue.take (o.batchSize.toCount st.logQueue.length)) with
          | error u => simp [hser]
          | ok body => simp [hser]
  · intro st
    unfold sendBatchSettle
    simp only []
    split
    · rw [scheduleBatch_logQueue]
    · rfl

/-- Witness for C5: the endpoint URL is untracked under the identity
resolver; a wrapped fetch to the endpoint leaves the state untouched; and
the request issued from a concrete active state targets the endpoint via
the saved original primitive. -/
theorem C5_no_self_observation_witness :
    ((id "/api/console-bridge" : String) = id DEFAULT_OPTIONS.endpoint ∧
      isNetworkTracked id (some DEFAULT_OPTIONS) "/api/console-bridge" = false) ∧
    ((wrappedFetch id fetchStub envT () fetchArgsEndpoint stC5f).2.2 = stC5f) ∧
    (stC5f.options = some DEFAULT_OPTIONS ∧ (sendBatch stC5f).2 = some reqC5 ∧
      reqC5.url = DEFAULT_OPTIONS.endpoint ∧
      reqC5.viaOriginal = stC5f.originalFetchSaved) :=
  ⟨⟨rfl, C5_no_self_observation.1 id DEFAULT_OPTIONS "/api/console-bridge" rfl⟩,
   C5_no_self_observation.2.1 Unit id fetchStub envT () fetchArgsEndpoint stC5f
     DEFAULT_OPTIONS rfl rfl,
   ⟨rfl, by decide,
    C5_no_self_observation.2.2.1 stC5f DEFAULT_OPTIONS reqC5 rfl (by decide)⟩⟩

/-- C10: if `JSON.stringify` throws while `sendBatch` builds the request
body (e.g. a circular console argument), the batch has already been
spliced off the queue and `isSending` has already been set, and no handler
is ever attached to reset it — the batch is lost and every subsequent
`sendBatch` returns without sending, until `restoreConsole` resets
`isSending` to `false`. -/
theorem C10_serialization_failure_wedges_sender (st : BridgeState)
    (o : Options) (hopt : st.options = some o) (hns : st.isSending = false)
    (hne : st.logQueue.length ≠ 0)
    (hser : serializeBody
      (st.logQueue.take (o.batchSize.toCount st.logQueue.length)) =
        .error ()) :
    ((sendBatch st).2 = none ∧
     (sendBatch st).1.isSending = true ∧
     (sendBatch st).1.logQueue =
       st.logQueue.drop (o.batchSize.toCount st.logQueue.length)) ∧
    (∀ st2 : BridgeState, st2.isSending = true → sendBatch st2 = (st2, none)) ∧
    (∀ (env : Env) (st3 : BridgeState), env.browser = true →
       (restoreConsole env st3).isSending = false) := by
  refine ⟨?_, ?_, ?_⟩
  · rw [sendBatch_ready st o hopt hns hne, hser]
    exact ⟨rfl, rfl, rfl⟩
  · intro st2 h2
    exact sendBatch_noWork st2 (Or.inl h2)
  · intro env st3 hb
    exact (restoreConsole_fields env st3 hb).2.2.2.2.2.2

/-- Witness for C10: a queue holding one circular entry wedges the sender
until deactivation. -/
theorem C10_serialization_failure_wedges_sender_witness :
    (stC10.options = some DEFAULT_OPTIONS ∧ stC10.isSending = false ∧
     stC10.logQueue.length ≠ 0 ∧
     serializeBody (stC10.logQueue.take
       (DEFAULT_OPTIONS.batchSize.toCount stC10.logQueue.length)) = .error ()) ∧
    ((sendBatch stC10).2 = none ∧
     (sendBatch stC10).1.isSending = true ∧
     (sendBatch stC10).1.logQueue =
       stC10.logQueue.drop (DEFAULT_OPTIONS.batchSize.toCount stC10.logQueue.length) ∧
     sendBatch (sendBatch stC10).1 = ((sendBatch stC10).1, none) ∧
     (restoreConsole envT (sendBatch stC10).1).isSending = false) :=
  have h := C10_serialization_failure_wedges_sender stC10 DEFAULT_OPTIONS rfl rfl
    (by decide) rfl
  ⟨⟨rfl, rfl, by decide, rfl⟩,
   h.1.1, h.1.2.1, h.1.2.2, h.2.1 (sendBatch stC10).1 h.1.2.1,
   h.2.2 envT (sendBatch stC10).1 rfl⟩

theorem queueEntry_opts_none (env : Env) (st : BridgeState) (e : LogEntry)
    (h : st.options = none) : queueEntry env st e = st := by
  unfold queueEntry
  rw [h]
  split
  · rfl
  · rfl

theorem checkMessageLoop_opts_none (env : Env) (e : LogEntry)
    (st : BridgeState) (h : st.options = none) :
    checkMessageLoop env e st = (false, st) := by
  unfold checkMessageLoop
  rw [h]

theorem processEntry_opts_none (env : Env) (st : BridgeState) (e : LogEntry)
    (h : st.options = none) : processEntry env st e = st := by
  unfold processEntry
  rw [checkMessageLoop_opts_none env e st h]
  simp [queueEntry_opts_none env st e h]

theorem xhrOnDone_opts_none (resolveUrl : String → String) (env : Env)
    (meta : Option XhrMeta) (status : Nat) (text : Option String)
    (st : BridgeState) (h : st.options = none) :
    xhrOnDone resolveUrl env meta status text st = st := by
  unfold xhrOnDone
  cases meta with
  | none => rfl
  | some m =>
    rw [h]
    simp [isNetworkTracked]

theorem fetchSuccessContinuation_opts_none (env : Env) (method url : String)
    (r : JsResponse) (st : BridgeState) (h : st.options = none) :
    fetchSuccessContinuation env method url r st = st := by
  unfold fetchSuccessContinuation
  exact processEntry_opts_none env st _ h

theorem fetchFailureContinuation_opts_none (env : Env) (method url : String)
    (err : JsValue) (st : BridgeState) (h : st.options = none) :
    fetchFailureContinuation env method url err st = st := by
  unfold fetchFailureContinuation
  exact processEntry_opts_none env st _ h

theorem unsuppressFire_stale (now : Nat) (cb : UnsuppressCb)
    (st : BridgeState) (h : cb.session ≠ st.sessionId) :
    unsuppressFire now cb st = st := by
  unfold unsuppressFire
  rw [if_pos h]

theorem batchTimerFire_opts_none (st : BridgeState) (h : st.options = none) :
    batchTimerFire st = ({ st with batchTimer := false }, none) := by
  unfold batchTimerFire
  exact sendBatch_opts_none _ h

/-- C9: after `restoreConsole()` returns, every asynchronous callback that
was scheduled before it leaves the queue, the loop tables and the
suppressed-key set unchanged: `queueEntry` and `isNetworkTracked` bail
because `options` is `null`, the XHR `loadend` handler and both fetch
continuations therefore change nothing, a stray batch-timer fire sends
nothing, and unsuppress callbacks bail because the session id advanced. -/
theorem C9_stale_callbacks_noop (env env2 : Env) (stPrior st : BridgeState)
    (hbrowser : env.browser = true)
    (hst : st = restoreConsole env stPrior) :
    st.options = none ∧
    (∀ e, queueEntry env2 st e = st) ∧
    (∀ (resolveUrl : String → String) (url : String),
       isNetworkTracked resolveUrl st.options url = false) ∧
    (∀ (resolveUrl : String → String) (meta : Option XhrMeta) (status : Nat)
       (text : Option String),
       xhrOnDone resolveUrl env2 meta status text st = st) ∧
    (∀ (method url : String) (r : JsResponse),
       fetchSuccessContinuation env2 method url r st = st) ∧
    (∀ (method url : String) (err : JsValue),
       fetchFailureContinuation env2 method url err st = st) ∧
    (batchTimerFire st = ({ st with batchTimer := false }, none)) ∧
    (∀ (now : Nat) (cb : UnsuppressCb), cb.session ≤ stPrior.sessionId →
       unsuppressFire now cb st = st) := by
  have hnone : st.options = none := by
    rw [hst]
    exact (restoreConsole_fields env stPrior hbrowser).1
  have hsid : st.sessionId = stPrior.sessionId + 1 := by
    rw [hst]
    exact (restoreConsole_fields env stPrior hbrowser).2.1
  refine ⟨hnone, fun e => queueEntry_opts_none env2 st e hnone, ?_,
    fun resolveUrl meta status text =>
      xhrOnDone_opts_none resolveUrl env2 meta status text st hnone,
    fun method url r =>
      fetchSuccessContinuation_opts_none env2 method url r st hnone,
    fun method url err =>
      fetchFailureContinuation_opts_none env2 method url err st hnone,
    batchTimerFire_opts_none st hnone, ?_⟩
  · intro resolveUrl url
    rw [hnone]
    rfl
  · intro now cb hle
    exact unsuppressFire_stale now cb st (by omega)

/-- Witness for C9 at a concrete mid-session state and a timer from the
torn-down session. -/
theorem C9_stale_callbacks_noop_witness :
    (envT.browser = true ∧ cbW.session ≤ stActiveA.sessionId) ∧
    ((restoreConsole envT stActiveA).options = none ∧
     queueEntry envT (restoreConsole envT stActiveA) entryA =
       restoreConsole envT stActiveA ∧
     unsuppressFire 99999 cbW (restoreConsole envT stActiveA) =
       restoreConsole envT stActiveA) :=
  have h := C9_stale_callbacks_noop envT envT stActiveA
    (restoreConsole envT stActiveA) rfl rfl
  ⟨⟨rfl, by decide⟩,
   h.1, h.2.1 entryA, h.2.2.2.2.2.2.2 99999 cbW (by decide)⟩

/-- C1: every wrapped primitive is transparent — a wrapped console method
returns exactly what the original returns and leaves the external world
exactly as the original call leaves it, and the wrapped fetch resolves /
rejects with exactly the original outcome, for all arguments and states;
the capture side-effects live only in the bridge state. -/
theorem C1_wrapped_primitives_transparent :
    (∀ (α ω : Type) (orig : ω → List JsValue → α × ω) (level : LogLevel)
       (env : Env) (w : ω) (args : List JsValue) (st : BridgeState),
       (interceptorCall orig level env w args st).1 = (orig w args).1 ∧
       (interceptorCall orig level env w args st).2.1 = (orig w args).2) ∧
    (∀ (ω : Type) (resolveUrl : String → String)
       (origFetch : ω → FetchArgs → Except JsValue JsResponse × ω)
       (env : Env) (w : ω) (a : FetchArgs) (st : BridgeState),
       (wrappedFetch resolveUrl origFetch env w a st).1 = (origFetch w a).1 ∧
       (wrappedFetch resolveUrl origFetch env w a st).2.1 = (origFetch w a).2) := by
  constructor
  · intro α ω orig level env w args st
    exact ⟨rfl, rfl⟩
  · intro ω resolveUrl origFetch env w a st
    unfold wrappedFetch
    simp only []
    rcases horig : origFetch w a with ⟨r, w2⟩
    split
    · exact ⟨rfl, rfl⟩
    · cases r with
      | ok resp => exact ⟨rfl, rfl⟩
      | error err => exact ⟨rfl, rfl⟩

theorem mapGet_mapSet_self {α : Type} (m : List (String × α)) (k : String)
    (v : α) : mapGet (mapSet m k v) k = some v := by
  induction m with
  | nil => simp [mapSet, mapGet]
  | cons p m ih =>
    by_cases h : p.1 = k
    · simp [mapSet, mapGet, h]
    · simp [mapSet, mapGet, h, ih]

theorem mapGet_mapDelete_of_none {α : Type} (m : List (String × α))
    (k k' : String) (h : mapGet m k = none) :
    mapGet (mapDelete m k') k = none := by
  induction m with
  | nil => rfl
  | cons p m ih =>
    unfold mapGet at h
    by_cases hp : p.1 = k
    · rw [if_pos hp] at h
      exact absurd h (by simp)
    · rw [if_neg hp] at h
      unfold mapDelete
      by_cases hp' : p.1 = k'
      · rw [if_pos hp']
        exact ih h
      · rw [if_neg hp']
        unfold mapGet
        rw [if_neg hp]
        exact ih h

theorem pruneOld_keep (cutoff : Int) (ts : List Nat)
    (h : ∀ x ∈ ts, cutoff ≤ (x : Int)) : pruneOld cutoff ts = ts := by
  induction ts with
  | nil => rfl
  | cons t ts ih =>
    unfold pruneOld
    rw [if_neg (by have := h t (by simp); omega)]

theorem pruneOld_all (cutoff : Int) (ts : List Nat)
    (h : ∀ x ∈ ts, (x : Int) < cutoff) : pruneOld cutoff ts = [] := by
  induction ts with
  | nil => rfl
  | cons t ts ih =>
    unfold pruneOld
    rw [if_pos (h t (by simp))]
    exact ih (fun x hx => h x (by simp [hx]))

theorem scheduleBatch_active (st : BridgeState) (o : Options)
    (hopt : st.options = some o) :
    scheduleBatch st = { st with batchTimer := true } := by
  unfold scheduleBatch
  rw [hopt]
  by_cases hb : st.batchTimer = true
  · rw [if_pos hb]
    cases st
    simp_all
  · rw [if_neg hb]

theorem queueEntry_active_room (env : Env) (st : BridgeState) (e : LogEntry)
    (o : Options) (hdev : env.dev = true) (hbrowser : env.browser = true)
    (hopt : st.options = some o) (hq : st.logQueue.length < o.maxQueueSize) :
    queueEntry env st e =
      { st with logQueue := st.logQueue ++ [e], batchTimer := true } := by
  rw [queueEntry_active env st e o hdev hbrowser hopt,
    if_neg (by omega)]
  exact scheduleBatch_active _ o hopt

theorem scheduleUnsuppress_active (st : BridgeState) (key : String)
    (o : Options) (hopt : st.options = some o) :
    scheduleUnsuppress st key =
      { st with pendingUnsuppress := st.pendingUnsuppress ++
          [{ key := key, loopWindow := o.loopWindow,
             threshold := o.loopThreshold, session := st.sessionId }] } := by
  unfold scheduleUnsuppress
  rw [hopt]

theorem pruneOld_nil (cutoff : Int) : pruneOld cutoff [] = [] := rfl

/-- `checkMessageLoop` on an entry whose key is already tracked: prune,
append, cap, then branch on the threshold. -/
theorem checkMessageLoop_existing_eq (env : Env) (e : LogEntry)
    (st : BridgeState) (o : Options) (ts : List Nat)
    (hopt : st.options = some o) (hne : getLoopKey e ≠ "")
    (hget : mapGet st.recentMessages (getLoopKey e) = some ts) :
    checkMessageLoop env e st =
      (let key := getLoopKey e
       let ts2 := pruneOld ((env.now : Int) - (o.loopWindow : Int)) ts ++ [env.now]
       let ts3 := if o.loopThreshold * 2 < ts2.length then
           ts2.drop (ts2.length - o.loopThreshold) else ts2
       let st1 := { st with recentMessages := mapSet st.recentMessages key ts3 }
       if o.loopThreshold ≤ ts3.length then
         if st.suppressedKeys.contains key then (true, st1)
         else
           (true, scheduleUnsuppress
             (queueEntry env { st1 with suppressedKeys := st.suppressedKeys ++ [key] }
               (loopWarningEntry env key ts3.length o.loopWindow e.url)) key)
       else
         (false, { st1 with suppressedKeys :=
            st.suppressedKeys.filter (fun k => k ≠ key) })) := by
  unfold checkMessageLoop
  rw [hopt]
  simp only [hne, if_false, hget, Option.getD_some]

/-- `checkMessageLoop` on a fresh key in an untruncated table with a
clamped threshold: the first occurrence passes and is recorded. -/
theorem checkMessageLoop_fresh_pass (env : Env) (e : LogEntry)
    (st : BridgeState) (o : Options)
    (hopt : st.options = some o) (hne : getLoopKey e ≠ "")
    (hget : mapGet st.recentMessages (getLoopKey e) = none)
    (hsize : st.recentMessages.length < 100)
    (hthr : 2 ≤ o.loopThreshold) :
    checkMessageLoop env e st =
      (false, { st with
          recentMessages := mapSet st.recentMessages (getLoopKey e) [env.now]
          suppressedKeys :=
            st.suppressedKeys.filter (fun k => k ≠ getLoopKey e) }) := by
  unfold checkMessageLoop
  rw [hopt]
  have hc1 : ¬ (100 ≤ st.recentMessages.length) := by omega
  have hc2 : ¬ (o.loopThreshold * 2 < ([env.now] : List Nat).length) := by
    simp only [List.length_singleton]
    omega
  have hc3 : ¬ (o.loopThreshold ≤ ([env.now] : List Nat).length) := by
    simp only [List.length_singleton]
    omega
  simp only [hne, if_false, hget, hc1, Option.getD_none, pruneOld_nil,
    List.nil_append, hc2, hc3, if_true, if_false]

/-- The first occurrence of a key not present in the table is never
suppressed, for any clamped (≥ 2) threshold — including when the lookup
triggers eviction of the oldest tracked key. -/
theorem checkMessageLoop_fresh_not_suppressed (env : Env) (e : LogEntry)
    (st : BridgeState) (o : Options)
    (hopt : st.options = some o) (hthr : 2 ≤ o.loopThreshold)
    (hget : mapGet st.recentMessages (getLoopKey e) = none) :
    (checkMessageLoop env e st).1 = false := by
  unfold checkMessageLoop
  rw [hopt]
  by_cases hk : getLoopKey e = ""
  · simp [hk]
  · have hc2 : ¬ (o.loopThreshold * 2 < ([env.now] : List Nat).length) := by
      simp only [List.length_singleton]
      omega
    have hc3 : ¬ (o.loopThreshold ≤ ([env.now] : List Nat).length) := by
      simp only [List.length_singleton]
      omega
    by_cases hsize : 100 ≤ st.recentMessages.length
    · cases hh : st.recentMessages.head? with
      | none =>
        simp only [hk, if_false, hget, hsize, if_true, hh, Option.getD_none,
          pruneOld_nil, List.nil_append, hc2, hc3]
      | some p =>
        have h2 : mapGet (mapDelete st.recentMessages p.1) (getLoopKey e) = none :=
          mapGet_mapDelete_of_none _ _ _ hget
        simp only [hk, if_false, hget, hsize, if_true, hh, h2, Option.getD_none,
          pruneOld_nil, List.nil_append, hc2, hc3]
    · simp only [hk, if_false, hget, hsize, Option.getD_none,
        pruneOld_nil, List.nil_append, hc2, hc3, if_false]

theorem scheduleUnsuppress_recentMessages (st : BridgeState) (key : String) :
    (scheduleUnsuppress st key).recentMessages = st.recentMessages := by
  unfold scheduleUnsuppress
  cases h : st.options with
  | none => rfl
  | some o => rfl

theorem checkMessageLoop_existing_recentMessages (env : Env) (e : LogEntry)
    (st : BridgeState) (o : Options) (ts : List Nat)
    (hopt : st.options = some o) (hne : getLoopKey e ≠ "")
    (hget : mapGet st.recentMessages (getLoopKey e) = some ts) :
    (checkMessageLoop env e st).2.recentMessages =
      mapSet st.recentMessages (getLoopKey e)
        (if o.loopThreshold * 2 <
            (pruneOld ((env.now : Int) - (o.loopWindow : Int)) ts ++
              [env.now]).length
         then (pruneOld ((env.now : Int) - (o.loopWindow : Int)) ts ++
            [env.now]).drop
            ((pruneOld ((env.now : Int) - (o.loopWindow : Int)) ts ++
              [env.now]).length - o.loopThreshold)
         else pruneOld ((env.now : Int) - (o.loopWindow : Int)) ts ++
            [env.now]) := by
  rw [checkMessageLoop_existing_eq env e st o ts hopt hne hget]
  simp only []
  split
  · split
    · split
      · rfl
      · rw [scheduleUnsuppress_recentMessages, queueEntry_recentMessages]
    · rfl
  · split
    · split
      · rfl
      · rw [scheduleUnsuppress_recentMessages, queueEntry_recentMessages]
    · rfl

/-- C8 counterexample: with `loopThreshold = 2` (so 2 × loopThreshold =
4), five same-key events in one window leave the stored occurrence
sequence at length 2 (= loopThreshold), not at its most recent 4
(= 2 × loopThreshold) elements as the claim states. -/
theorem C8_counterexample :
    opts2.loopThreshold = 2 ∧
    mapGet (processLogsAt "x" [0, 0, 0, 0, 0] stC8).recentMessages "x" =
      some [0, 0] ∧
    ([0, 0] : List Nat).length ≠ 2 * opts2.loopThreshold := by
  refine ⟨rfl, ?_, by decide⟩
  decide

/-- C8 (amended): on each candidate event with an already-tracked key,
after pruning, the current timestamp is appended; whenever the resulting
sequence length exceeds `2 × loopThreshold`, the oldest excess entries are
dropped so that exactly the most recent `loopThreshold` entries remain
(otherwise the appended sequence is stored unchanged). -/
theorem C8_cap_amended (env : Env) (e : LogEntry) (st : BridgeState)
    (o : Options) (ts : List Nat)
    (hopt : st.options = some o) (hne : getLoopKey e ≠ "")
    (hget : mapGet st.recentMessages (getLoopKey e) = some ts) :
    ∃ stored : List Nat,
      mapGet (checkMessageLoop env e st).2.recentMessages (getLoopKey e) =
        some stored ∧
      ((pruneOld ((env.now : Int) - (o.loopWindow : Int)) ts).length + 1 ≤
          2 * o.loopThreshold →
        stored =
          pruneOld ((env.now : Int) - (o.loopWindow : Int)) ts ++ [env.now]) ∧
      (2 * o.loopThreshold <
          (pruneOld ((env.now : Int) - (o.loopWindow : Int)) ts).length + 1 →
        stored.length = o.loopThreshold ∧
        stored = (pruneOld ((env.now : Int) - (o.loopWindow : Int)) ts ++
            [env.now]).drop
          ((pruneOld ((env.now : Int) - (o.loopWindow : Int)) ts).length + 1 -
            o.loopThreshold)) := by
  refine ⟨(if o.loopThreshold * 2 <
      (pruneOld ((env.now : Int) - (o.loopWindow : Int)) ts ++ [env.now]).length
    then (pruneOld ((env.now : Int) - (o.loopWindow : Int)) ts ++
        [env.now]).drop
        ((pruneOld ((env.now : Int) - (o.loopWindow : Int)) ts ++
          [env.now]).length - o.loopThreshold)
    else pruneOld ((env.now : Int) - (o.loopWindow : Int)) ts ++ [env.now]),
    ?_, ?_, ?_⟩
  · rw [checkMessageLoop_existing_recentMessages env e st o ts hopt hne hget]
    exact mapGet_mapSet_self _ _ _
  · intro hle
    rw [if_neg (by
      simp only [List.length_append, List.length_singleton]
      omega)]
  · intro hgt
    rw [if_pos (by
      simp only [List.length_append, List.length_singleton]
      omega)]
    constructor
    · simp only [List.length_drop, List.length_append, List.length_singleton]
      omega
    · simp only [List.length_append, List.length_singleton]

/-- Witness for C8 (amended): four tracked occurrences plus a fifth event
exceed 2 × loopThreshold = 4, and the stored sequence ends up with exactly
`loopThreshold = 2` entries. -/
theorem C8_cap_amended_witness :
    (getLoopKey eC8 = "x" ∧
     mapGet stC8b.recentMessages (getLoopKey eC8) = some [0, 0, 0, 0] ∧
     opts2.loopThreshold = 2 ∧
     2 * opts2.loopThreshold <
       (pruneOld (((envAt 0).now : Int) - (opts2.loopWindow : Int))
         [0, 0, 0, 0]).length + 1) ∧
    ∃ stored : List Nat,
      mapGet (checkMessageLoop (envAt 0) eC8 stC8b).2.recentMessages
        (getLoopKey eC8) = some stored ∧
      stored.length = opts2.loopThreshold := by
  have h := C8_cap_amended (envAt 0) eC8 stC8b opts2 [0, 0, 0, 0] rfl
    (by decide) (by decide)
  obtain ⟨stored, hst, _hle, hgt⟩ := h
  have hcond : 2 * opts2.loopThreshold <
      (pruneOld (((envAt 0).now : Int) - (opts2.loopWindow : Int))
        [0, 0, 0, 0]).length + 1 := by decide
  exact ⟨⟨by decide, by decide, rfl, hcond⟩, stored, hst, (hgt hcond).1⟩

theorem getLoopKey_consoleEntry (env : Env) (msg : String) :
    getLoopKey (consoleEntry env .log [.str msg]) = msg.take 200 := by
  simp [getLoopKey, consoleEntry]

theorem mapSet_nil {α : Type} (k : String) (v : α) :
    mapSet [] k v = [(k, v)] := rfl

theorem mapSet_singleton_same {α : Type} (k : String) (ts v : α) :
    mapSet [(k, ts)] k v = [(k, v)] := by
  simp [mapSet]

theorem mapGet_singleton_same {α : Type} (k : String) (ts : α) :
    mapGet [(k, ts)] k = some ts := by
  simp [mapGet]

theorem consoleEntry_url (env : Env) (level : LogLevel) (args : List JsValue) :
    (consoleEntry env level args).url = env.href := by
  unfold consoleEntry
  split
  · rfl
  · rfl

theorem bridgeState_rm_eta (st : BridgeState)
    (v : List (String × List Nat)) (h : st.recentMessages = v) :
    { st with recentMessages := v } = st := by
  cases st
  simp_all

/-- One structured log on a completely fresh key (clamped threshold): the
event passes and is both recorded and queued. -/
theorem step_fresh (env : Env) (msg : String) (o : Options) (st : BridgeState)
    (hdev : env.dev = true) (hbrowser : env.browser = true)
    (hopt : st.options = some o) (hne : msg.take 200 ≠ "")
    (hrm : st.recentMessages = []) (hsk : st.suppressedKeys = [])
    (hthr : 2 ≤ o.loopThreshold) (hq : st.logQueue.length < o.maxQueueSize) :
    processEntry env st (consoleEntry env .log [.str msg]) =
      { st with
          logQueue := st.logQueue ++ [consoleEntry env .log [.str msg]]
          recentMessages := [(msg.take 200, [env.now])]
          suppressedKeys := []
          batchTimer := true } := by
  have hget : mapGet st.recentMessages
      (getLoopKey (consoleEntry env .log [.str msg])) = none := by
    rw [getLoopKey_consoleEntry, hrm]
    rfl
  unfold processEntry
  rw [checkMessageLoop_fresh_pass env _ st o hopt
    (by rw [getLoopKey_consoleEntry]; exact hne) hget
    (by rw [hrm]; simp) hthr]
  simp only [getLoopKey_consoleEntry, Bool.false_eq_true, if_false]
  rw [hrm, hsk]
  simp only [mapSet_nil, List.filter_nil]
  refine (queueEntry_active_room env _ _ o hdev hbrowser ?_ ?_).trans ?_
  · exact hopt
  · exact hq
  · rfl

/-- One structured log on a tracked key while the window count stays below
threshold: the event passes, its timestamp is appended, the queue grows. -/
theorem step_pass (env : Env) (msg : String) (o : Options) (st : BridgeState)
    (ts : List Nat)
    (hdev : env.dev = true) (hbrowser : env.browser = true)
    (hopt : st.options = some o) (hne : msg.take 200 ≠ "")
    (hrm : st.recentMessages = [(msg.take 200, ts)])
    (hsk : st.suppressedKeys = [])
    (hwin : ∀ x ∈ ts, (env.now : Int) - (o.loopWindow : Int) ≤ (x : Int))
    (hlen : ts.length + 1 < o.loopThreshold)
    (hq : st.logQueue.length < o.maxQueueSize) :
    processEntry env st (consoleEntry env .log [.str msg]) =
      { st with
          logQueue := st.logQueue ++ [consoleEntry env .log [.str msg]]
          recentMessages := [(msg.take 200, ts ++ [env.now])]
          suppressedKeys := []
          batchTimer := true } := by
  have hget : mapGet st.recentMessages
      (getLoopKey (consoleEntry env .log [.str msg])) = some ts := by
    rw [getLoopKey_consoleEntry, hrm]
    simp [mapGet]
  unfold processEntry
  rw [checkMessageLoop_existing_eq env _ st o ts hopt
    (by rw [getLoopKey_consoleEntry]; exact hne) hget]
  simp only [getLoopKey_consoleEntry]
  rw [pruneOld_keep _ ts hwin]
  have hlen2 : (ts ++ [env.now]).length = ts.length + 1 := by
    simp
  have hcap : ¬ (o.loopThreshold * 2 < (ts ++ [env.now]).length) := by
    rw [hlen2]
    omega
  have hthr2 : ¬ (o.loopThreshold ≤ (ts ++ [env.now]).length) := by
    rw [hlen2]
    omega
  rw [if_neg hcap, if_neg hthr2]
  simp only [Bool.false_eq_true, if_false]
  rw [hrm, hsk]
  simp only [mapSet_singleton_same, List.filter_nil]
  refine (queueEntry_active_room env _ _ o hdev hbrowser ?_ ?_).trans ?_
  · exact hopt
  · exact hq
  · rfl

theorem queueEntry_room_record (env : Env) (e : LogEntry) (o : Options)
    (st : BridgeState) (rm : List (String × List Nat)) (sk : List String)
    (hdev : env.dev = true) (hbrowser : env.browser = true)
    (hopt : st.options = some o) (hq : st.logQueue.length < o.maxQueueSize) :
    queueEntry env { st with recentMessages := rm, suppressedKeys := sk } e =
      { st with
          logQueue := st.logQueue ++ [e]
          recentMessages := rm
          suppressedKeys := sk
          batchTimer := true } :=
  queueEntry_active_room env _ e o hdev hbrowser hopt hq

theorem scheduleUnsuppress_record (st : BridgeState) (key : String)
    (o : Options) (lq : List LogEntry) (rm : List (String × List Nat))
    (sk : List String) (bt : Bool) (hopt : st.options = some o) :
    scheduleUnsuppress
      { st with
          logQueue := lq
          recentMessages := rm
          suppressedKeys := sk
          batchTimer := bt } key =
      { st with
          logQueue := lq
          recentMessages := rm
          suppressedKeys := sk
          batchTimer := bt
          pendingUnsuppress := st.pendingUnsuppress ++
            [{ key := key, loopWindow := o.loopWindow,
               threshold := o.loopThreshold, session := st.sessionId }] } :=
  scheduleUnsuppress_active _ key o hopt

/-- The event that crosses the threshold for the first time: the candidate
is suppressed, the key is marked, a single LOOP DETECTED warning is
enqueued, and an unsuppress timer is scheduled. -/
theorem step_suppress_first (env : Env) (msg : String) (o : Options)
    (st : BridgeState) (ts : List Nat)
    (hdev : env.dev = true) (hbrowser : env.browser = true)
    (hopt : st.options = some o) (hne : msg.take 200 ≠ "")
    (hrm : st.recentMessages = [(msg.take 200, ts)])
    (hsk : st.suppressedKeys = [])
    (hwin : ∀ x ∈ ts, (env.now : Int) - (o.loopWindow : Int) ≤ (x : Int))
    (hlen : o.loopThreshold ≤ ts.length + 1)
    (hcap : ts.length + 1 ≤ o.loopThreshold * 2)
    (hq : st.logQueue.length < o.maxQueueSize) :
    processEntry env st (consoleEntry env .log [.str msg]) =
      { st with
          logQueue := st.logQueue ++
            [loopWarningEntry env (msg.take 200) (ts.length + 1)
              o.loopWindow env.href]
          recentMessages := [(msg.take 200, ts ++ [env.now])]
          suppressedKeys := [msg.take 200]
          batchTimer := true
          pendingUnsuppress := st.pendingUnsuppress ++
            [{ key := msg.take 200, loopWindow := o.loopWindow,
               threshold := o.loopThreshold, session := st.sessionId }] } := by
  have hget : mapGet st.recentMessages
      (getLoopKey (consoleEntry env .log [.str msg])) = some ts := by
    rw [getLoopKey_consoleEntry, hrm]
    exact mapGet_singleton_same _ _
  unfold processEntry
  rw [checkMessageLoop_existing_eq env _ st o ts hopt
    (by rw [getLoopKey_consoleEntry]; exact hne) hget]
  simp only [getLoopKey_consoleEntry, consoleEntry_url]
  rw [pruneOld_keep _ ts hwin]
  have hlen2 : (ts ++ [env.now]).length = ts.length + 1 := by
    simp
  have hcap' : ¬ (o.loopThreshold * 2 < (ts ++ [env.now]).length) := by
    rw [hlen2]
    omega
  have hthr' : o.loopThreshold ≤ (ts ++ [env.now]).length := by
    rw [hlen2]
    omega
  rw [if_neg hcap', if_pos hthr', hsk, hrm]
  simp only [mapSet_singleton_same, List.contains_nil, Bool.false_eq_true,
    if_false, List.nil_append, hlen2, eq_self_iff_true, if_true]
  rw [queueEntry_room_record env _ o st _ _ hdev hbrowser hopt hq]
  rw [scheduleUnsuppress_record st (msg.take 200) o _ _ _ _ hopt]

/-- A suppressed-phase event: the key is marked and the count stays at or
above threshold, so the event is dropped and only the stored timestamp
sequence changes. -/
theorem step_suppress_again (env : Env) (msg : String) (o : Options)
    (st : BridgeState) (ts : List Nat)
    (hopt : st.options = some o) (hne : msg.take 200 ≠ "")
    (hrm : st.recentMessages = [(msg.take 200, ts)])
    (hsk : st.suppressedKeys = [msg.take 200])
    (hwin : ∀ x ∈ ts, (env.now : Int) - (o.loopWindow : Int) ≤ (x : Int))
    (hlen : o.loopThreshold ≤ ts.length) :
    processEntry env st (consoleEntry env .log [.str msg]) =
      { st with recentMessages := [(msg.take 200,
          if o.loopThreshold * 2 < ts.length + 1 then
            (ts ++ [env.now]).drop (ts.length + 1 - o.loopThreshold)
          else ts ++ [env.now])] } := by
  have hget : mapGet st.recentMessages
      (getLoopKey (consoleEntry env .log [.str msg])) = some ts := by
    rw [getLoopKey_consoleEntry, hrm]
    exact mapGet_singleton_same _ _
  unfold processEntry
  rw [checkMessageLoop_existing_eq env _ st o ts hopt
    (by rw [getLoopKey_consoleEntry]; exact hne) hget]
  simp only [getLoopKey_consoleEntry]
  rw [pruneOld_keep _ ts hwin]
  have hlen2 : (ts ++ [env.now]).length = ts.length + 1 := by
    simp
  rw [hlen2]
  have hthr3 : o.loopThreshold ≤
      (if o.loopThreshold * 2 < ts.length + 1 then
        (ts ++ [env.now]).drop (ts.length + 1 - o.loopThreshold)
      else ts ++ [env.now]).length := by
    split
    · simp only [List.length_drop, hlen2]
      omega
    · rw [hlen2]
      omega
  rw [if_pos hthr3]
  have hcont : st.suppressedKeys.contains (msg.take 200) = true := by
    rw [hsk]
    simp
  rw [hcont, hrm]
  simp only [mapSet_singleton_same, eq_self_iff_true, if_true]

/-- An identical event arriving after the window has fully elapsed: all
stored timestamps are pruned, the event passes, and the key is
unsuppressed. -/
theorem step_prune_all (env : Env) (msg : String) (o : Options)
    (st : BridgeState) (ts : List Nat)
    (hdev : env.dev = true) (hbrowser : env.browser = true)
    (hopt : st.options = some o) (hne : msg.take 200 ≠ "")
    (hrm : st.recentMessages = [(msg.take 200, ts)])
    (hthr : 2 ≤ o.loopThreshold)
    (hall : ∀ x ∈ ts, (x : Int) < (env.now : Int) - (o.loopWindow : Int))
    (hq : st.logQueue.length < o.maxQueueSize) :
    (checkMessageLoop env (consoleEntry env .log [.str msg]) st).1 = false ∧
    processEntry env st (consoleEntry env .log [.str msg]) =
      { st with
          logQueue := st.logQueue ++ [consoleEntry env .log [.str msg]]
          recentMessages := [(msg.take 200, [env.now])]
          suppressedKeys :=
            st.suppressedKeys.filter (fun k => k ≠ msg.take 200)
          batchTimer := true } := by
  have hget : mapGet st.recentMessages
      (getLoopKey (consoleEntry env .log [.str msg])) = some ts := by
    rw [getLoopKey_consoleEntry, hrm]
    exact mapGet_singleton_same _ _
  have hchk : checkMessageLoop env (consoleEntry env .log [.str msg]) st =
      (false, { st with
          recentMessages := [(msg.take 200, [env.now])],
          suppressedKeys :=
            st.suppressedKeys.filter (fun k => k ≠ msg.take 200) }) := by
    rw [checkMessageLoop_existing_eq env _ st o ts hopt
      (by rw [getLoopKey_consoleEntry]; exact hne) hget]
    simp only [getLoopKey_consoleEntry]
    rw [pruneOld_all _ ts hall]
    simp only [List.nil_append]
    have hcap : ¬ (o.loopThreshold * 2 < ([env.now] : List Nat).length) := by
      simp only [List.length_singleton]
      omega
    have hthr2 : ¬ (o.loopThreshold ≤ ([env.now] : List Nat).length) := by
      simp only [List.length_singleton]
      omega
    rw [if_neg hcap, if_neg hthr2, hrm]
    simp only [mapSet_singleton_same]
  constructor
  · rw [hchk]
  · unfold processEntry
    rw [hchk]
    simp only [Bool.false_eq_true, if_false]
    refine (queueEntry_active_room env _ _ o hdev hbrowser ?_ ?_).trans ?_
    · exact hopt
    · exact hq
    · rfl

theorem getLast?_getD_cons (rest : List Nat) (t hi : Nat) :
    (t :: rest).getLast?.getD hi = rest.getLast?.getD t := by
  induction rest generalizing t hi with
  | nil => rfl
  | cons b l ih =>
    rw [List.getLast?_cons_cons, ih b hi, ih b t]

/-- During a suppression episode, any further sequence of same-key events
inside the window leaves the queue, the suppressed-key set and every other
field unchanged; only the stored timestamp sequence evolves, keeping at
least `loopThreshold` entries, all bounded by the last event time. -/
theorem processLogs_suppressed_run (msg : String) (o : Options)
    (hne : msg.take 200 ≠ "") :
    ∀ (times : List Nat) (st : BridgeState) (ts : List Nat) (lo hi : Nat),
      st.options = some o →
      st.recentMessages = [(msg.take 200, ts)] →
      st.suppressedKeys = [msg.take 200] →
      o.loopThreshold ≤ ts.length →
      (∀ x ∈ ts, lo ≤ x ∧ x ≤ hi) →
      List.Chain' (fun a b => a ≤ b) (hi :: times) →
      (∀ u ∈ times, lo ≤ u ∧ u ≤ lo + o.loopWindow) →
      ∃ ts' : List Nat,
        processLogsAt msg times st =
          { st with recentMessages := [(msg.take 200, ts')] } ∧
        o.loopThreshold ≤ ts'.length ∧
        (∀ x ∈ ts', lo ≤ x ∧ x ≤ times.getLast?.getD hi) := by
  intro times
  induction times with
  | nil =>
    intro st ts lo hi hopt hrm hsk hlen hbounds hchain hwin
    refine ⟨ts, ?_, hlen, ?_⟩
    · show st = _
      exact (bridgeState_rm_eta st [(msg.take 200, ts)] hrm).symm
    · simpa using hbounds
  | cons t rest ih =>
    intro st ts lo hi hopt hrm hsk hlen hbounds hchain hwin
    have hht : hi ≤ t := (List.chain'_cons.mp hchain).1
    have hchain' : List.Chain' (fun a b => a ≤ b) (t :: rest) :=
      (List.chain'_cons.mp hchain).2
    have htlo : lo ≤ t := (hwin t (by simp)).1
    have hthi : t ≤ lo + o.loopWindow := (hwin t (by simp)).2
    have hstep := step_suppress_again (envAt t) msg o st ts hopt hne hrm hsk
      (by
        intro x hx
        have hb := hbounds x hx
        show (t : Int) - (o.loopWindow : Int) ≤ (x : Int)
        have : (t : Int) ≤ (lo : Int) + (o.loopWindow : Int) := by
          exact_mod_cast hthi
        have : (lo : Int) ≤ (x : Int) := by exact_mod_cast hb.1
        omega)
      hlen
    have hstep' : processLogAt msg st t =
        { st with recentMessages := [(msg.take 200,
            if o.loopThreshold * 2 < ts.length + 1 then
              (ts ++ [(envAt t).now]).drop (ts.length + 1 - o.loopThreshold)
            else ts ++ [(envAt t).now])] } := hstep
    have hnow : (envAt t).now = t := rfl
    rw [hnow] at hstep'
    set ts1 : List Nat :=
      (if o.loopThreshold * 2 < ts.length + 1 then
        (ts ++ [t]).drop (ts.length + 1 - o.loopThreshold)
      else ts ++ [t]) with hts1
    have hmemts1 : ∀ x ∈ ts1, x ∈ ts ++ [t] := by
      intro x hx
      rw [hts1] at hx
      by_cases hc : o.loopThreshold * 2 < ts.length + 1
      · rw [if_pos hc] at hx
        exact List.drop_subset _ _ hx
      · rw [if_neg hc] at hx
        exact hx
    have hlen1 : o.loopThreshold ≤ ts1.length := by
      rw [hts1]
      by_cases hc : o.loopThreshold * 2 < ts.length + 1
      · rw [if_pos hc]
        simp only [List.length_drop, List.length_append, List.length_singleton]
        omega
      · rw [if_neg hc]
        simp only [List.length_append, List.length_singleton]
        omega
    have hbounds1 : ∀ x ∈ ts1, lo ≤ x ∧ x ≤ t := by
      intro x hx
      rcases List.mem_append.mp (hmemts1 x hx) with hx' | hx'
      · have hb := hbounds x hx'
        exact ⟨hb.1, le_trans hb.2 hht⟩
      · simp at hx'
        subst hx'
        exact ⟨htlo, le_refl _⟩
    have hrest := ih { st with recentMessages := [(msg.take 200, ts1)] }
      ts1 lo t hopt rfl hsk hlen1 hbounds1 hchain'
      (fun u hu => hwin u (by simp [hu]))
    obtain ⟨ts', heq, hlen', hb'⟩ := hrest
    refine ⟨ts', ?_, hlen', ?_⟩
    · show processLogsAt msg rest (processLogAt msg st t) = _
      rw [hstep', heq]
    · rw [getLast?_getD_cons]
      exact hb'

theorem plAt_fresh (msg : String) (o : Options) (st : BridgeState) (t : Nat)
    (hopt : st.options = some o) (hne : msg.take 200 ≠ "")
    (hrm : st.recentMessages = []) (hsk : st.suppressedKeys = [])
    (hthr : 2 ≤ o.loopThreshold) (hq : st.logQueue.length < o.maxQueueSize) :
    processLogAt msg st t =
      { st with
          logQueue := st.logQueue ++ [consoleEntry (envAt t) .log [.str msg]]
          recentMessages := [(msg.take 200, [t])]
          suppressedKeys := []
          batchTimer := true } :=
  step_fresh (envAt t) msg o st rfl rfl hopt hne hrm hsk hthr hq

theorem plAt_pass (msg : String) (o : Options) (st : BridgeState)
    (t : Nat) (ts : List Nat)
    (hopt : st.options = some o) (hne : msg.take 200 ≠ "")
    (hrm : st.recentMessages = [(msg.take 200, ts)])
    (hsk : st.suppressedKeys = [])
    (hwin : ∀ x ∈ ts, (t : Int) - (o.loopWindow : Int) ≤ (x : Int))
    (hlen : ts.length + 1 < o.loopThreshold)
    (hq : st.logQueue.length < o.maxQueueSize) :
    processLogAt msg st t =
      { st with
          logQueue := st.logQueue ++ [consoleEntry (envAt t) .log [.str msg]]
          recentMessages := [(msg.take 200, ts ++ [t])]
          suppressedKeys := []
          batchTimer := true } :=
  step_pass (envAt t) msg o st ts rfl rfl hopt hne hrm hsk hwin hlen hq

theorem plAt_suppress_first (msg : String) (o : Options) (st : BridgeState)
    (t : Nat) (ts : List Nat)
    (hopt : st.options = some o) (hne : msg.take 200 ≠ "")
    (hrm : st.recentMessages = [(msg.take 200, ts)])
    (hsk : st.suppressedKeys = [])
    (hwin : ∀ x ∈ ts, (t : Int) - (o.loopWindow : Int) ≤ (x : Int))
    (hlen : o.loopThreshold ≤ ts.length + 1)
    (hcap : ts.length + 1 ≤ o.loopThreshold * 2)
    (hq : st.logQueue.length < o.maxQueueSize) :
    processLogAt msg st t =
      { st with
          logQueue := st.logQueue ++
            [loopWarningEntry (envAt t) (msg.take 200) (ts.length + 1)
              o.loopWindow "page"]
          recentMessages := [(msg.take 200, ts ++ [t])]
          suppressedKeys := [msg.take 200]
          batchTimer := true
          pendingUnsuppress := st.pendingUnsuppress ++
            [{ key := msg.take 200, loopWindow := o.loopWindow,
               threshold := o.loopThreshold, session := st.sessionId }] } :=
  step_suppress_first (envAt t) msg o st ts rfl rfl hopt hne hrm hsk hwin
    hlen hcap hq

theorem plAt_prune_all (msg : String) (o : Options) (st : BridgeState)
    (t : Nat) (ts : List Nat)
    (hopt : st.options = some o) (hne : msg.take 200 ≠ "")
    (hrm : st.recentMessages = [(msg.take 200, ts)])
    (hthr : 2 ≤ o.loopThreshold)
    (hall : ∀ x ∈ ts, (x : Int) < (t : Int) - (o.loopWindow : Int))
    (hq : st.logQueue.length < o.maxQueueSize) :
    (checkMessageLoop (envAt t) (consoleEntry (envAt t) .log [.str msg])
      st).1 = false ∧
    processLogAt msg st t =
      { st with
          logQueue := st.logQueue ++ [consoleEntry (envAt t) .log [.str msg]]
          recentMessages := [(msg.take 200, [t])]
          suppressedKeys :=
            st.suppressedKeys.filter (fun k => k ≠ msg.take 200)
          batchTimer := true } :=
  step_prune_all (envAt t) msg o st ts rfl rfl hopt hne hrm hthr hall hq

/-- C2: with `loopThreshold = 5`, a freshly activated session processing 5
or more identical structured-log events within one loop window queues
events 1–4, suppresses events 5..N, enqueues exactly one LOOP DETECTED
warning for the episode (and schedules one unsuppress timer); once the
window has fully elapsed after the last event, the next identical event is
not suppressed and is queued; and the first occurrence of any fresh key is
never suppressed under any clamped configuration. -/
theorem C2_loop_suppression (o : Options) (st0 : BridgeState) (msg : String)
    (t1 t2 t3 t4 t5 tG : Nat) (rest : List Nat)
    (hopt : st0.options = some o) (hthr : o.loopThreshold = 5)
    (hq0 : st0.logQueue = []) (hrm0 : st0.recentMessages = [])
    (hsk0 : st0.suppressedKeys = []) (hmax : 10 ≤ o.maxQueueSize)
    (hne : msg.take 200 ≠ "")
    (h12 : t1 ≤ t2) (h23 : t2 ≤ t3) (h34 : t3 ≤ t4) (h45 : t4 ≤ t5)
    (hchain : List.Chain' (fun a b => a ≤ b) (t5 :: rest))
    (hwinall : ∀ u ∈ t2 :: t3 :: t4 :: t5 :: rest,
      t1 ≤ u ∧ u ≤ t1 + o.loopWindow)
    (hgap : rest.getLast?.getD t5 + o.loopWindow < tG) :
    ∃ tsF : List Nat,
      processLogsAt msg (t1 :: t2 :: t3 :: t4 :: t5 :: rest) st0 =
        { st0 with
            logQueue := [consoleEntry (envAt t1) .log [.str msg],
                         consoleEntry (envAt t2) .log [.str msg],
                         consoleEntry (envAt t3) .log [.str msg],
                         consoleEntry (envAt t4) .log [.str msg],
                         loopWarningEntry (envAt t5) (msg.take 200) 5
                           o.loopWindow "page"]
            recentMessages := [(msg.take 200, tsF)]
            suppressedKeys := [msg.take 200]
            batchTimer := true
            pendingUnsuppress := st0.pendingUnsuppress ++
              [{ key := msg.take 200, loopWindow := o.loopWindow,
                 threshold := o.loopThreshold, session := st0.sessionId }] } ∧
      (checkMessageLoop (envAt tG) (consoleEntry (envAt tG) .log [.str msg])
        (processLogsAt msg (t1 :: t2 :: t3 :: t4 :: t5 :: rest) st0)).1 =
          false ∧
      (processLogAt msg
          (processLogsAt msg (t1 :: t2 :: t3 :: t4 :: t5 :: rest) st0)
          tG).logQueue =
        (processLogsAt msg (t1 :: t2 :: t3 :: t4 :: t5 :: rest) st0).logQueue
          ++ [consoleEntry (envAt tG) .log [.str msg]] ∧
      (∀ (env2 : Env) (st2 : BridgeState) (o2 : Options) (e2 : LogEntry),
        st2.options = some o2 → 2 ≤ o2.loopThreshold →
        mapGet st2.recentMessages (getLoopKey e2) = none →
        (checkMessageLoop env2 e2 st2).1 = false) := by
  have hth2 : 2 ≤ o.loopThreshold := by omega
  have hw2 := hwinall t2 (by simp)
  have hw3 := hwinall t3 (by simp)
  have hw4 := hwinall t4 (by simp)
  have hw5 := hwinall t5 (by simp)
  have h1 : processLogAt msg st0 t1 =
      { st0 with
          logQueue := st0.logQueue ++ [consoleEntry (envAt t1) .log [.str msg]]
          recentMessages := [(msg.take 200, [t1])]
          suppressedKeys := []
          batchTimer := true } :=
    plAt_fresh msg o st0 t1 hopt hne hrm0 hsk0 hth2
      (by simp only [hq0, List.length_nil]; omega)
  have h2 : processLogAt msg
      { st0 with
          logQueue := st0.logQueue ++ [consoleEntry (envAt t1) .log [.str msg]]
          recentMessages := [(msg.take 200, [t1])]
          suppressedKeys := []
          batchTimer := true } t2 =
      { st0 with
          logQueue := (st0.logQueue ++ [consoleEntry (envAt t1) .log [.str msg]])
            ++ [consoleEntry (envAt t2) .log [.str msg]]
          recentMessages := [(msg.take 200, [t1, t2])]
          suppressedKeys := []
          batchTimer := true } :=
    plAt_pass msg o _ t2 [t1] hopt hne rfl rfl
      (by
        intro x hx
        simp only [List.mem_singleton] at hx
        subst hx
        omega)
      (by simp only [List.length_singleton]; omega)
      (by simp only [hq0, List.nil_append, List.length_singleton]; omega)
  have h3 : processLogAt msg
      { st0 with
          logQueue := (st0.logQueue ++ [consoleEntry (envAt t1) .log [.str msg]])
            ++ [consoleEntry (envAt t2) .log [.str msg]]
          recentMessages := [(msg.take 200, [t1, t2])]
          suppressedKeys := []
          batchTimer := true } t3 =
      { st0 with
          logQueue := ((st0.logQueue ++ [consoleEntry (envAt t1) .log [.str msg]])
            ++ [consoleEntry (envAt t2) .log [.str msg]])
            ++ [consoleEntry (envAt t3) .log [.str msg]]
          recentMessages := [(msg.take 200, [t1, t2, t3])]
          suppressedKeys := []
          batchTimer := true } :=
    plAt_pass msg o _ t3 [t1, t2] hopt hne rfl rfl
      (by
        intro x hx
        simp only [List.mem_cons, List.mem_singleton, List.not_mem_nil,
          or_false] at hx
        rcases hx with rfl | rfl <;> omega)
      (by simp only [List.length_cons, List.length_singleton,
        List.length_nil]; omega)
      (by simp only [hq0, List.nil_append, List.length_append,
        List.length_singleton]; omega)
  have h4 : processLogAt msg
      { st0 with
          logQueue := ((st0.logQueue ++ [consoleEntry (envAt t1) .log [.str msg]])
            ++ [consoleEntry (envAt t2) .log [.str msg]])
            ++ [consoleEntry (envAt t3) .log [.str msg]]
          recentMessages := [(msg.take 200, [t1, t2, t3])]
          suppressedKeys := []
          batchTimer := true } t4 =
      { st0 with
          logQueue := (((st0.logQueue ++ [consoleEntry (envAt t1) .log [.str msg]])
            ++ [consoleEntry (envAt t2) .log [.str msg]])
            ++ [consoleEntry (envAt t3) .log [.str msg]])
            ++ [consoleEntry (envAt t4) .log [.str msg]]
          recentMessages := [(msg.take 200, [t1, t2, t3, t4])]
          suppressedKeys := []
          batchTimer := true } :=
    plAt_pass msg o _ t4 [t1, t2, t3] hopt hne rfl rfl
      (by
        intro x hx
        simp only [List.mem_cons, List.mem_singleton, List.not_mem_nil,
          or_false] at hx
        rcases hx with rfl | rfl | rfl <;> omega)
      (by simp only [List.length_cons, List.length_singleton,
        List.length_nil]; omega)
      (by simp only [hq0, List.nil_append, List.length_append,
        List.length_singleton]; omega)
  have h5 : processLogAt msg
      { st0 with
          logQueue := (((st0.logQueue ++ [consoleEntry (envAt t1) .log [.str msg]])
            ++ [consoleEntry (envAt t2) .log [.str msg]])
            ++ [consoleEntry (envAt t3) .log [.str msg]])
            ++ [consoleEntry (envAt t4) .log [.str msg]]
          recentMessages := [(msg.take 200, [t1, t2, t3, t4])]
          suppressedKeys := []
          batchTimer := true } t5 =
      { st0 with
          logQueue := ((((st0.logQueue ++ [consoleEntry (envAt t1) .log [.str msg]])
            ++ [consoleEntry (envAt t2) .log [.str msg]])
            ++ [consoleEntry (envAt t3) .log [.str msg]])
            ++ [consoleEntry (envAt t4) .log [.str msg]])
            ++ [loopWarningEntry (envAt t5) (msg.take 200) 5
                 o.loopWindow "page"]
          recentMessages := [(msg.take 200, [t1, t2, t3, t4, t5])]
          suppressedKeys := [msg.take 200]
          batchTimer := true
          pendingUnsuppress := st0.pendingUnsuppress ++
            [{ key := msg.take 200, loopWindow := o.loopWindow,
               threshold := o.loopThreshold, session := st0.sessionId }] } :=
    plAt_suppress_first msg o _ t5 [t1, t2, t3, t4] hopt hne rfl rfl
      (by
        intro x hx
        simp only [List.mem_cons, List.mem_singleton, List.not_mem_nil,
          or_false] at hx
        rcases hx with rfl | rfl | rfl | rfl <;> omega)
      (by simp only [List.length_cons, List.length_singleton,
        List.length_nil]; omega)
      (by simp only [List.length_cons, List.length_singleton,
        List.length_nil]; omega)
      (by simp only [hq0, List.nil_append, List.length_append,
        List.length_singleton]; omega)
  have hS5 : processLogsAt msg (t1 :: t2 :: t3 :: t4 :: t5 :: rest) st0 =
      processLogsAt msg rest
        { st0 with
            logQueue := ((((st0.logQueue ++ [consoleEntry (envAt t1) .log [.str msg]])
              ++ [consoleEntry (envAt t2) .log [.str msg]])
              ++ [consoleEntry (envAt t3) .log [.str msg]])
              ++ [consoleEntry (envAt t4) .log [.str msg]])
              ++ [loopWarningEntry (envAt t5) (msg.take 200) 5
                   o.loopWindow "page"]
            recentMessages := [(msg.take 200, [t1, t2, t3, t4, t5])]
            suppressedKeys := [msg.take 200]
            batchTimer := true
            pendingUnsuppress := st0.pendingUnsuppress ++
              [{ key := msg.take 200, loopWindow := o.loopWindow,
                 threshold := o.loopThreshold, session := st0.sessionId }] } := by
    show processLogsAt msg rest (processLogAt msg (processLogAt msg
      (processLogAt msg (processLogAt msg (processLogAt msg st0 t1) t2) t3)
        t4) t5) = _
    rw [h1, h2, h3, h4, h5]
  obtain ⟨tsF, hrun, hlenF, hbF⟩ :=
    processLogs_suppressed_run msg o hne rest
      ({ st0 with
            logQueue := ((((st0.logQueue ++ [consoleEntry (envAt t1) .log [.str msg]])
              ++ [consoleEntry (envAt t2) .log [.str msg]])
              ++ [consoleEntry (envAt t3) .log [.str msg]])
              ++ [consoleEntry (envAt t4) .log [.str msg]])
              ++ [loopWarningEntry (envAt t5) (msg.take 200) 5
                   o.loopWindow "page"]
            recentMessages := [(msg.take 200, [t1, t2, t3, t4, t5])]
            suppressedKeys := [msg.take 200]
            batchTimer := true
            pendingUnsuppress := st0.pendingUnsuppress ++
              [{ key := msg.take 200, loopWindow := o.loopWindow,
                 threshold := o.loopThreshold, session := st0.sessionId }] })
      [t1, t2, t3, t4, t5] t1 t5
      hopt rfl rfl
      (by simp only [List.length_cons, List.length_nil]; omega)
      (by
        intro x hx
        simp only [List.mem_cons, List.mem_singleton, List.not_mem_nil,
          or_false] at hx
        rcases hx with rfl | rfl | rfl | rfl | rfl <;>
          exact ⟨by omega, by omega⟩)
      hchain
      (fun u hu => hwinall u
        (List.mem_cons_of_mem _ (List.mem_cons_of_mem _
          (List.mem_cons_of_mem _ (List.mem_cons_of_mem _ hu)))))
  have hfull := hS5.trans hrun
  have hprune := plAt_prune_all msg o
    ({ st0 with
            logQueue := ((((st0.logQueue ++ [consoleEntry (envAt t1) .log [.str msg]])
              ++ [consoleEntry (envAt t2) .log [.str msg]])
              ++ [consoleEntry (envAt t3) .log [.str msg]])
              ++ [consoleEntry (envAt t4) .log [.str msg]])
              ++ [loopWarningEntry (envAt t5) (msg.take 200) 5
                   o.loopWindow "page"]
            recentMessages := [(msg.take 200, tsF)]
            suppressedKeys := [msg.take 200]
            batchTimer := true
            pendingUnsuppress := st0.pendingUnsuppress ++
              [{ key := msg.take 200, loopWindow := o.loopWindow,
                 threshold := o.loopThreshold, session := st0.sessionId }] })
    tG tsF hopt hne rfl hth2
    (by
      intro x hx
      have hb := hbF x hx
      omega)
    (by
      simp only [hq0, List.nil_append, List.length_append, List.length_cons,
        List.length_nil, List.length_singleton]
      omega)
  refine ⟨tsF, ?_, ?_, ?_, ?_⟩
  · rw [hfull]
    simp only [hq0, List.nil_append, List.cons_append, List.singleton_append]
  · rw [hfull]
    exact hprune.1
  · rw [hfull, hprune.2]
  · exact fun env2 st2 o2 e2 ho2 hthr2 hget2 =>
      checkMessageLoop_fresh_not_suppressed env2 e2 st2 o2 ho2 hthr2 hget2

/-- Witness for C2: seven identical logs at time 0 under `loopThreshold =
5` queue the first four plus one warning; at time 5001 (after the 5000 ms
window) the next identical log passes. -/
theorem C2_loop_suppression_witness :
    (opts5.loopThreshold = 5 ∧ 10 ≤ opts5.maxQueueSize ∧
      "boom".take 200 ≠ "" ∧
      ([] : List Nat).getLast?.getD 0 + opts5.loopWindow < 5001) ∧
    ∃ tsF : List Nat,
      processLogsAt "boom" [0, 0, 0, 0, 0] st5 =
        { st5 with
            logQueue := [consoleEntry (envAt 0) .log [.str "boom"],
                         consoleEntry (envAt 0) .log [.str "boom"],
                         consoleEntry (envAt 0) .log [.str "boom"],
                         consoleEntry (envAt 0) .log [.str "boom"],
                         loopWarningEntry (envAt 0) ("boom".take 200) 5
                           opts5.loopWindow "page"]
            recentMessages := [("boom".take 200, tsF)]
            suppressedKeys := ["boom".take 200]
            batchTimer := true
            pendingUnsuppress := st5.pendingUnsuppress ++
              [{ key := "boom".take 200, loopWindow := opts5.loopWindow,
                 threshold := opts5.loopThreshold,
                 session := st5.sessionId }] } ∧
      (checkMessageLoop (envAt 5001)
        (consoleEntry (envAt 5001) .log [.str "boom"])
        (processLogsAt "boom" [0, 0, 0, 0, 0] st5)).1 = false ∧
      (processLogAt "boom" (processLogsAt "boom" [0, 0, 0, 0, 0] st5)
          5001).logQueue =
        (processLogsAt "boom" [0, 0, 0, 0, 0] st5).logQueue ++
          [consoleEntry (envAt 5001) .log [.str "boom"]] ∧
      (∀ (env2 : Env) (st2 : BridgeState) (o2 : Options) (e2 : LogEntry),
        st2.options = some o2 → 2 ≤ o2.loopThreshold →
        mapGet st2.recentMessages (getLoopKey e2) = none →
        (checkMessageLoop env2 e2 st2).1 = false) :=
  ⟨⟨by decide, by decide, by decide, by decide⟩,
   C2_loop_suppression opts5 st5 "boom" 0 0 0 0 0 5001 [] rfl (by decide)
     rfl rfl rfl (by decide) (by decide) (by decide) (by decide) (by decide)
     (by decide) (List.chain'_singleton _) (by decide) (by decide)⟩
